import Mathlib

/-! Flashcard2: session-gated routing, forms and list screens.

A shallow embedding of `src/index.js`.  React components become pure functions
of their state, event handlers become functions that thread the provider
state, return the next component state and log every observable effect
(provider calls, alerts, console output, navigation) in program order.
-/

namespace Flashcard2

/-! ## Route matching (react-router, as used by `Routes`) -/

/-- Pieces of a path between slashes; `"/a/b"` gives `["", "a", "b"]`. -/
def splitSlash : List Char → List (List Char)
  | [] => [[]]
  | c :: cs =>
    if c = '/' then [] :: splitSlash cs
    else
      match splitSlash cs with
      | seg :: rest => (c :: seg) :: rest
      | [] => [[c]]

/-- Trailing slashes are optional in a route match: drop the empty pieces at the end. -/
def dropTrailingEmpty (segs : List (List Char)) : List (List Char) :=
  (segs.reverse.dropWhile (fun s => s.isEmpty)).reverse

/-- Value of a hexadecimal digit. -/
def hexDigit (c : Char) : Option Nat :=
  let n := c.toNat
  if 48 ≤ n ∧ n ≤ 57 then some (n - 48)
  else if 97 ≤ n ∧ n ≤ 102 then some (n - 87)
  else if 65 ≤ n ∧ n ≤ 70 then some (n - 55)
  else none

/-- A piece of an encoded component: a character standing for itself or one
escaped octet `%XX`. -/
inductive UriToken where
  | unit (c : Char)
  | octet (b : Nat)
  deriving DecidableEq, Repr

/-- Read the escapes of a component; `none` when a `%` is not followed by two
hexadecimal digits (the URIError of `decodeURIComponent`). -/
def uriTokens : List Char → Option (List UriToken)
  | [] => some []
  | c :: rest =>
    if c = '%' then
      match rest with
      | a :: b :: rest2 =>
        match hexDigit a, hexDigit b with
        | some x, some y => (uriTokens rest2).map (fun ts => UriToken.octet (16 * x + y) :: ts)
        | _, _ => none
      | _ => none
    else (uriTokens rest).map (fun ts => UriToken.unit c :: ts)

/-- The payload of a UTF-8 continuation octet `10xxxxxx`, which must itself be escaped. -/
def continuationBits (t : UriToken) : Option Nat :=
  match t with
  | UriToken.octet b => if 0x80 ≤ b ∧ b < 0xC0 then some (b - 0x80) else none
  | UriToken.unit _ => none

/-- Turn escaped octets into characters: an octet below `0x80` is the
character itself, a lead octet opens a UTF-8 sequence of two to four escaped
octets; `none` for an ill-formed sequence (overlong forms, surrogates and
values above `0x10FFFF` included). -/
def decodeOctets : List UriToken → Option (List Char)
  | [] => some []
  | UriToken.unit c :: ts => (decodeOctets ts).map (fun cs => c :: cs)
  | UriToken.octet b :: ts =>
    if b < 0x80 then (decodeOctets ts).map (fun cs => Char.ofNat b :: cs)
    else if 0xC0 ≤ b ∧ b < 0xE0 then
      match ts with
      | t1 :: ts2 =>
        match continuationBits t1 with
        | some c1 =>
          let v := (b - 0xC0) * 64 + c1
          if 0x80 ≤ v then (decodeOctets ts2).map (fun cs => Char.ofNat v :: cs) else none
        | none => none
      | [] => none
    else if 0xE0 ≤ b ∧ b < 0xF0 then
      match ts with
      | t1 :: t2 :: ts3 =>
        match continuationBits t1, continuationBits t2 with
        | some c1, some c2 =>
          let v := ((b - 0xE0) * 64 + c1) * 64 + c2
          if 0x800 ≤ v ∧ ¬ (0xD800 ≤ v ∧ v ≤ 0xDFFF) then
            (decodeOctets ts3).map (fun cs => Char.ofNat v :: cs)
          else none
        | _, _ => none
      | _ => none
    else if 0xF0 ≤ b ∧ b < 0xF8 then
      match ts with
      | t1 :: t2 :: t3 :: ts4 =>
        match continuationBits t1, continuationBits t2, continuationBits t3 with
        | some c1, some c2, some c3 =>
          let v := (((b - 0xF0) * 64 + c1) * 64 + c2) * 64 + c3
          if 0x10000 ≤ v ∧ v ≤ 0x10FFFF then
            (decodeOctets ts4).map (fun cs => Char.ofNat v :: cs)
          else none
        | _, _, _ => none
      | _ => none
    else none

/-- The function `decodeURIComponent`; `none` stands for the URIError. -/
def decodeURIComponent (s : List Char) : Option (List Char) :=
  (uriTokens s).bind decodeOctets

/-- Decode every piece of a path; `none` as soon as one piece is ill-formed. -/
def decodeAll : List (List Char) → Option (List (List Char))
  | [] => some []
  | s :: rest =>
    match decodeURIComponent s, decodeAll rest with
    | some d, some ds => some (d :: ds)
    | _, _ => none

/-- Write a slash that came out of an escape back as `%2F`, so that it does
not separate pieces. -/
def escapeSlash : List Char → List Char
  | [] => []
  | c :: cs => if c = '/' then '%' :: '2' :: 'F' :: escapeSlash cs else c :: escapeSlash cs

/-- Replace every `%2F` by a slash, as is done with a matched parameter value. -/
def unescapeSlash : List Char → List Char
  | '%' :: '2' :: 'F' :: rest => '/' :: unescapeSlash rest
  | c :: cs => c :: unescapeSlash cs
  | [] => []

/-- The pathname as the router matches it: split at the slashes, every piece
percent-decoded; an ill-formed escape anywhere leaves the whole pathname as
it is. -/
def decodePath (pathname : List Char) : List (List Char) :=
  match decodeAll (splitSlash pathname) with
  | some decoded => decoded.map escapeSlash
  | none => splitSlash pathname

/-- Route parameters extracted by a match (what `useParams` returns). -/
abbrev Params := List (String × String)

/-- Segment-wise match of a route pattern against the decoded pieces of a
pathname.  A pattern piece that starts with a colon binds one non-empty path
piece; any other piece must be equal up to ASCII case (routes are
case-insensitive unless `caseSensitive` is set, which `App` never does). -/
def matchSegs : List (List Char) → List (List Char) → Option Params
  | [], [] => some []
  | [], _ :: _ => none
  | _ :: _, [] => none
  | (':' :: name) :: ps, s :: ss =>
    if s.isEmpty then none
    else
      (matchSegs ps ss).map (fun rest => (String.mk name, String.mk (unescapeSlash s)) :: rest)
  | p :: ps, s :: ss =>
    if p.map Char.toLower = s.map Char.toLower then matchSegs ps ss else none

/-- Join pieces with slashes. -/
def joinSlash : List (List Char) → List Char
  | [] => []
  | [s] => s
  | s :: rest => s ++ '/' :: joinSlash rest

/-- Match one route path against the current pathname; `"*"` is the
catch-all, whose parameter is the decoded path after the leading slash. -/
def matchPath (pattern pathname : String) : Option Params :=
  if pattern = "*" then
    some [("*", String.mk (unescapeSlash ((joinSlash (decodePath pathname.toList)).drop 1)))]
  else matchSegs (splitSlash pattern.toList) (dropTrailingEmpty (decodePath pathname.toList))

/-! ## Elements rendered by `App` -/

/-- The session object handed over by the auth client; the router only tests its presence. -/
structure Session where
  userId : String
  deriving DecidableEq, Repr

/-- What a route renders: one of the four screens or a redirect. -/
inductive Element where
  | Login
  | Register
  | Dashboard
  | TopicView (topicId : Option String)
  | Navigate (target : String)
  deriving DecidableEq, Repr

/-- One `<Route path=... element=... />` entry; the element may read the matched parameters. -/
structure Route where
  path : String
  element : Params → Element

/-- The `<Routes>` component: render the first route whose path matches (the
two specific routes of each table never match the same pathname and the
catch-all is listed last, so declaration order is the ranking order);
`none` is the empty render when nothing matches. -/
def Routes : List Route → String → Option Element
  | [], _ => none
  | r :: rs, pathname =>
    match matchPath r.path pathname with
    | some params => some (r.element params)
    | none => Routes rs pathname

/-- The component `App` (index.js 383-399): the route table is chosen by `!session`. -/
def App (session : Option Session) (pathname : String) : Option Element :=
  match session with
  | none =>
    Routes
      [ ⟨"/register", fun _ => Element.Register⟩,
        ⟨"/login", fun _ => Element.Login⟩,
        ⟨"*", fun _ => Element.Navigate "/login"⟩ ] pathname
  | some _ =>
    Routes
      [ ⟨"/dashboard", fun _ => Element.Dashboard⟩,
        ⟨"/topic/:topicId", fun params => Element.TopicView (params.lookup "topicId")⟩,
        ⟨"*", fun _ => Element.Navigate "/dashboard"⟩ ] pathname

/-- The router state: the `session` state variable of `App` and the browser location. -/
structure RouterState where
  session : Option Session
  pathname : String
  deriving DecidableEq, Repr

/-- The callback registered with `onAuthStateChange` (index.js 377-379): `setSession(session)`. -/
def onAuthStateChange (st : RouterState) (session : Option Session) : RouterState :=
  { st with session := session }

/-- Route resolution: evaluate `App`; a rendered `<Navigate to=...>` replaces
the location and `App` is evaluated again.  The fuel bounds the number of
evaluations; `none` means the fuel ran out or nothing was rendered. -/
def resolve : Nat → RouterState → Option (RouterState × Element)
  | 0, _ => none
  | fuel + 1, st =>
    match App st.session st.pathname with
    | some (Element.Navigate target) => resolve fuel { st with pathname := target }
    | some e => some (st, e)
    | none => none

/-! ## The provider client and the effects of a handler -/

/-- An error object returned by the provider; handlers show its `message`. -/
structure ApiError where
  message : String
  deriving DecidableEq, Repr

/-- The user object inside the reply of `auth.getUser()`. -/
structure User where
  id : String
  deriving DecidableEq, Repr

/-- A row of table `topics`. -/
structure Topic where
  id : String
  name : String
  user_id : String
  created_at : Nat
  deriving DecidableEq, Repr

/-- A row of table `cards`. -/
structure Card where
  id : String
  topic_id : String
  question : String
  answer : String
  created_at : Nat
  deriving DecidableEq, Repr

/-- The provider calls issued by the source, one constructor per call shape. -/
inductive Call where
  | signInWithPassword (email password : String)
  | signUp (email password full_name : String)
  | getUser
  | insertTopic (name user_id : String)
  | selectTopics (user_id : String)
  | selectTopic (id : String)
  | insertCard (topic_id question answer : String)
  | selectCards (topic_id : String)
  deriving DecidableEq, Repr

/-- Everything a handler does that is visible outside the component state. -/
inductive Effect where
  | call (c : Call)
  | alert (message : String)
  | consoleError (error : ApiError)
  | navigate (target : String)
  | typeError
  deriving DecidableEq, Repr

/-- The calls on `supabase.auth` as functions of the provider state; an
error reply is `some`, the `user` of `getUser` may be null. -/
structure Auth (σ : Type) where
  signInWithPassword : String → String → σ → Option ApiError × σ
  signUp : String → String → String → σ → Option ApiError × σ
  getUser : σ → Option User × σ

/-- The query chains on `supabase.from(...)` used by the source. -/
structure Database (σ : Type) where
  insertTopic : String → String → σ → Option ApiError × σ
  selectTopics : String → σ → Except ApiError (List Topic) × σ
  selectTopic : String → σ → Except ApiError Topic × σ
  insertCard : String → String → String → σ → Option ApiError × σ
  selectCards : String → σ → Except ApiError (List Card) × σ

/-- The client object `supabase`. -/
structure Supabase (σ : Type) where
  auth : Auth σ
  db : Database σ

/-- Outcome of running a handler: provider state, component state, effect log. -/
structure Run (σ S : Type) where
  world : σ
  state : S
  effects : List Effect

/-- The provider calls in an effect log, in order. -/
def calls : List Effect → List Call
  | [] => []
  | Effect.call c :: es => c :: calls es
  | _ :: es => calls es

/-- The alert texts in an effect log, in order. -/
def alerts : List Effect → List String
  | [] => []
  | Effect.alert m :: es => m :: alerts es
  | _ :: es => alerts es

/-- The navigation targets in an effect log, in order. -/
def navigations : List Effect → List String
  | [] => []
  | Effect.navigate t :: es => t :: navigations es
  | _ :: es => navigations es

/-! ## Login (index.js 20-69) -/

/-- State variables of `Login`. -/
structure LoginState where
  email : String
  password : String
  loading : Bool
  deriving DecidableEq, Repr

/-- Handler `handleLogin` (index.js 26-36). -/
def Login.handleLogin {σ : Type} (sb : Supabase σ) (w : σ) (st : LoginState) :
    Run σ LoginState :=
  let st1 := { st with loading := true }
  let r := sb.auth.signInWithPassword st.email st.password w
  match r.1 with
  | some error =>
    ⟨r.2, { st1 with loading := false },
      [Effect.call (Call.signInWithPassword st.email st.password), Effect.alert error.message]⟩
  | none =>
    ⟨r.2, { st1 with loading := false },
      [Effect.call (Call.signInWithPassword st.email st.password), Effect.navigate "/dashboard"]⟩

/-! ## Register (index.js 72-167) -/

/-- State variables of `Register`. -/
structure RegisterState where
  fullName : String
  email : String
  password : String
  confirmPassword : String
  acceptedTerms : Bool
  loading : Bool
  deriving DecidableEq, Repr

/-- Handler `handleRegister` (index.js 81-106). -/
def Register.handleRegister {σ : Type} (sb : Supabase σ) (w : σ) (st : RegisterState) :
    Run σ RegisterState :=
  if st.password ≠ st.confirmPassword then
    ⟨w, st, [Effect.alert "A jelszavak nem egyeznek!"]⟩
  else if !st.acceptedTerms then
    ⟨w, st, [Effect.alert "Az ÁSZF elfogadása kötelező!"]⟩
  else
    let st1 := { st with loading := true }
    let r := sb.auth.signUp st.email st.password st.fullName w
    match r.1 with
    | some error =>
      ⟨r.2, { st1 with loading := false },
        [Effect.call (Call.signUp st.email st.password st.fullName), Effect.alert error.message]⟩
    | none =>
      ⟨r.2, { st1 with loading := false },
        [Effect.call (Call.signUp st.email st.password st.fullName),
         Effect.alert "Regisztráció sikeres! Kérjük, igazold az email címed.",
         Effect.navigate "/login"]⟩

/-! ## String trimming (`String.prototype.trim`) -/

/-- White space and line terminators removed by `trim`. -/
def isTrimChar (c : Char) : Bool :=
  let n := c.toNat
  n = 0x09 || n = 0x0A || n = 0x0B || n = 0x0C || n = 0x0D || n = 0x20 || n = 0xA0 ||
  n = 0x1680 || (0x2000 ≤ n && n ≤ 0x200A) || n = 0x2028 || n = 0x2029 || n = 0x202F ||
  n = 0x205F || n = 0x3000 || n = 0xFEFF

/-- The method `trim`: strip white space from both ends. -/
def jsTrim (s : String) : String :=
  String.mk (((s.toList.dropWhile isTrimChar).reverse.dropWhile isTrimChar).reverse)

/-! ## Dashboard (index.js 170-255) -/

/-- State variables of `Dashboard`. -/
structure DashboardState where
  topics : List Topic
  newTopic : String
  deriving DecidableEq, Repr

/-- Function `fetchTopics` (index.js 179-194).  Reading `user.id` of a null
user raises a TypeError that nothing catches. -/
def Dashboard.fetchTopics {σ : Type} (sb : Supabase σ) (w : σ) (st : DashboardState) :
    Run σ DashboardState :=
  let u := sb.auth.getUser w
  match u.1 with
  | none => ⟨u.2, st, [Effect.call Call.getUser, Effect.typeError]⟩
  | some user =>
    let r := sb.db.selectTopics user.id u.2
    match r.1 with
    | Except.error error =>
      ⟨r.2, st,
        [Effect.call Call.getUser, Effect.call (Call.selectTopics user.id),
         Effect.consoleError error]⟩
    | Except.ok data =>
      ⟨r.2, { st with topics := data },
        [Effect.call Call.getUser, Effect.call (Call.selectTopics user.id)]⟩

/-- Handler `handleAddTopic` (index.js 196-211). -/
def Dashboard.handleAddTopic {σ : Type} (sb : Supabase σ) (w : σ) (st : DashboardState) :
    Run σ DashboardState :=
  if jsTrim st.newTopic = "" then ⟨w, st, []⟩
  else
    let u := sb.auth.getUser w
    match u.1 with
    | none => ⟨u.2, st, [Effect.call Call.getUser, Effect.typeError]⟩
    | some user =>
      let r := sb.db.insertTopic st.newTopic user.id u.2
      match r.1 with
      | some error =>
        ⟨r.2, st,
          [Effect.call Call.getUser, Effect.call (Call.insertTopic st.newTopic user.id),
           Effect.alert error.message]⟩
      | none =>
        let f := Dashboard.fetchTopics sb r.2 { st with newTopic := "" }
        ⟨f.world, f.state,
          [Effect.call Call.getUser, Effect.call (Call.insertTopic st.newTopic user.id)]
            ++ f.effects⟩

/-! ## TopicView (index.js 258-347) -/

/-- The route parameter and the state variables of `TopicView`. -/
structure TopicViewState where
  topicId : String
  topic : Option Topic
  cards : List Card
  question : String
  answer : String
  deriving DecidableEq, Repr

/-- Function `fetchTopic` (index.js 271-282). -/
def TopicView.fetchTopic {σ : Type} (sb : Supabase σ) (w : σ) (st : TopicViewState) :
    Run σ TopicViewState :=
  let r := sb.db.selectTopic st.topicId w
  match r.1 with
  | Except.error error =>
    ⟨r.2, st, [Effect.call (Call.selectTopic st.topicId), Effect.alert error.message]⟩
  | Except.ok data =>
    ⟨r.2, { st with topic := some data }, [Effect.call (Call.selectTopic st.topicId)]⟩

/-- Function `fetchCards` (index.js 284-295). -/
def TopicView.fetchCards {σ : Type} (sb : Supabase σ) (w : σ) (st : TopicViewState) :
    Run σ TopicViewState :=
  let r := sb.db.selectCards st.topicId w
  match r.1 with
  | Except.error error =>
    ⟨r.2, st, [Effect.call (Call.selectCards st.topicId), Effect.alert error.message]⟩
  | Except.ok data =>
    ⟨r.2, { st with cards := data }, [Effect.call (Call.selectCards st.topicId)]⟩

/-- Handler `handleAddCard` (index.js 297-310). -/
def TopicView.handleAddCard {σ : Type} (sb : Supabase σ) (w : σ) (st : TopicViewState) :
    Run σ TopicViewState :=
  if jsTrim st.question = "" || jsTrim st.answer = "" then ⟨w, st, []⟩
  else
    let r := sb.db.insertCard st.topicId st.question st.answer w
    match r.1 with
    | some error =>
      ⟨r.2, st,
        [Effect.call (Call.insertCard st.topicId st.question st.answer),
         Effect.alert error.message]⟩
    | none =>
      let f := TopicView.fetchCards sb r.2 { st with question := "", answer := "" }
      ⟨f.world, f.state,
        Effect.call (Call.insertCard st.topicId st.question st.answer) :: f.effects⟩

/-! ## Flashcard (index.js 350-364) -/

/-- The prop `card` and the state variable `flipped`. -/
structure FlashcardState where
  card : Card
  flipped : Bool
  deriving DecidableEq, Repr

/-- A freshly mounted flashcard: `useState(false)`. -/
def Flashcard.mount (card : Card) : FlashcardState :=
  { card := card, flipped := false }

/-- The click handler `() => setFlipped(!flipped)`, with its (empty) effect log. -/
def Flashcard.onClick (st : FlashcardState) : FlashcardState × List Effect :=
  ({ st with flipped := !st.flipped }, [])

/-- What `Flashcard` renders: the class of the inner element and both faces. -/
structure FlashcardView where
  innerClass : String
  front : String
  back : String
  deriving DecidableEq, Repr

/-- The render of `Flashcard` (index.js 352-363). -/
def Flashcard.render (st : FlashcardState) : FlashcardView :=
  { innerClass := "flashcard-inner " ++ (if st.flipped then "flipped" else "")
    front := st.card.question
    back := st.card.answer }

/-- The two faces of a card. -/
inductive Face where
  | question
  | answer
  deriving DecidableEq, Repr

/-- Modelled from the spec: the stylesheet `index.css` is not part of the
sources; the flip interaction turns the card over, so the answer face is the
one displayed exactly when the inner element carries the class `flipped`. -/
def displayedFace (v : FlashcardView) : Face :=
  if v.innerClass = "flashcard-inner flipped" then Face.answer else Face.question

/-! ## A reference data store

The provider is external.  For the list-and-create contract only this much
of it matters: an insert stamps the new row with the current creation
time, a select filters by the owner or parent key and orders by creation time,
newest first.  Any call may be rejected with an error (`fault`). -/

/-- Insert `x` into a list ordered by `key`, largest first. -/
def insertDesc {α : Type} (key : α → Nat) (x : α) : List α → List α
  | [] => [x]
  | y :: ys => if key x ≤ key y then y :: insertDesc key x ys else x :: y :: ys

/-- The clause `.order('created_at', ascending: false)`: sort by `key`, largest first. -/
def orderDesc {α : Type} (key : α → Nat) : List α → List α
  | [] => []
  | x :: xs => insertDesc key x (orderDesc key xs)

/-- State of the reference provider. -/
structure World where
  user : Option User
  topics : List Topic
  cards : List Card
  now : Nat
  freshId : Nat → String
  fault : Call → Option ApiError

/-- Reply to a call that carries no rows: the injected fault, state unchanged
on error and updated by `onSuccess` otherwise. -/
def World.ack (w : World) (c : Call) (onSuccess : World) : Option ApiError × World :=
  match w.fault c with
  | some error => (some error, w)
  | none => (none, onSuccess)

/-- The reference provider.  Accounts are not modelled: sign-in and sign-up
only report the injected fault. -/
def store : Supabase World where
  auth :=
    { signInWithPassword := fun email password w =>
        w.ack (Call.signInWithPassword email password) w
      signUp := fun email password full_name w =>
        w.ack (Call.signUp email password full_name) w
      getUser := fun w => (w.user, w) }
  db :=
    { insertTopic := fun name user_id w =>
        w.ack (Call.insertTopic name user_id)
          { w with
            topics := w.topics ++ [⟨w.freshId w.now, name, user_id, w.now⟩]
            now := w.now + 1 }
      selectTopics := fun user_id w =>
        match w.fault (Call.selectTopics user_id) with
        | some error => (Except.error error, w)
        | none =>
          (Except.ok (orderDesc Topic.created_at
            (w.topics.filter (fun t => t.user_id = user_id))), w)
      selectTopic := fun id w =>
        match w.fault (Call.selectTopic id) with
        | some error => (Except.error error, w)
        | none =>
          match w.topics.filter (fun t => t.id = id) with
          | [t] => (Except.ok t, w)
          | _ => (Except.error ⟨"JSON object requested, multiple (or no) rows returned"⟩, w)
      insertCard := fun topic_id question answer w =>
        w.ack (Call.insertCard topic_id question answer)
          { w with
            cards := w.cards ++ [⟨w.freshId w.now, topic_id, question, answer, w.now⟩]
            now := w.now + 1 }
      selectCards := fun topic_id w =>
        match w.fault (Call.selectCards topic_id) with
        | some error => (Except.error error, w)
        | none =>
          (Except.ok (orderDesc Card.created_at
            (w.cards.filter (fun c => c.topic_id = topic_id))), w) }

/-- A list is newest-first when every row is at least as new as the rows after it. -/
def NewestFirst {α : Type} (key : α → Nat) (l : List α) : Prop :=
  l.Pairwise (fun a b => key b ≤ key a)

/-- Whether a call is an insert. -/
def Call.isInsert : Call → Bool
  | Call.insertTopic _ _ => true
  | Call.insertCard _ _ _ => true
  | _ => false

/-- Whether a call is a read of a table. -/
def Call.isSelect : Call → Bool
  | Call.selectTopics _ => true
  | Call.selectTopic _ => true
  | Call.selectCards _ => true
  | _ => false

/-- A provider state with one user, two topics, one card and no faults. -/
def sampleWorld : World where
  user := some ⟨"u1"⟩
  topics := [⟨"t1", "History", "u1", 3⟩, ⟨"t2", "Maths", "u1", 5⟩]
  cards := [⟨"c1", "t1", "Q0", "A0", 4⟩, ⟨"c2", "t2", "Q1", "A1", 6⟩]
  now := 7
  freshId := fun n => String.mk (List.replicate n 'x')
  fault := fun _ => none

/-- The provider state `sampleWorld` after the user is gone: `getUser` replies a null user. -/
def signedOutWorld : World :=
  { sampleWorld with user := none }

/-- The provider state `sampleWorld` with every call rejected with `message`. -/
def failingWorld (message : String) : World :=
  { sampleWorld with fault := fun _ => some ⟨message⟩ }

/-! ## Facts about route matching -/

theorem matchPath_star (pathname : String) :
    matchPath "*" pathname =
      some [("*", String.mk (unescapeSlash ((joinSlash (decodePath pathname.toList)).drop 1)))] := by
  simp [matchPath]

/-- A two-piece static pattern matches exactly the two-piece paths equal to it up to case. -/
theorem matchSegs_static_isSome (q : List Char) (hq : ∀ name, q ≠ ':' :: name)
    (L : List (List Char)) :
    (matchSegs [[], q] L).isSome = true ↔
      ∃ s, L = [[], s] ∧ q.map Char.toLower = s.map Char.toLower := by
  constructor
  · intro h
    match L, h with
    | [], h => simp [matchSegs] at h
    | [a], h => simp [matchSegs] at h
    | a :: b :: c :: r, h => simp [matchSegs] at h
    | [a, b], h =>
      simp only [matchSegs, List.map_nil] at h
      by_cases ha : a = []
      · by_cases hb : List.map Char.toLower q = List.map Char.toLower b
        · exact ⟨b, by rw [ha], hb⟩
        · simp [ha, hb] at h
      · simp [ha] at h
  · rintro ⟨s, rfl, hs⟩
    simp [matchSegs, hs]

/-- The three-piece pattern `/topic/:topicId` matches only three-piece paths. -/
theorem matchSegs_topic_isSome (L : List (List Char)) :
    (matchSegs [[], "topic".toList, ":topicId".toList] L).isSome = true →
      ∃ s t, L = [[], s, t] := by
  intro h
  match L, h with
  | [], h => simp [matchSegs] at h
  | [a], h => simp [matchSegs] at h
  | [a, b], h => simp [matchSegs] at h
  | a :: b :: c :: d :: r, h => 
    simp [matchSegs] at h
  | [a, b, c], h =>
    simp only [matchSegs, List.map_nil] at h
    by_cases ha : a = []
    · exact ⟨b, c, by rw [ha]⟩
    · simp [ha] at h

theorem matchPath_login (p : String) :
    matchPath "/login" p =
      matchSegs [[], "login".toList] (dropTrailingEmpty (decodePath p.toList)) := by
  have h : splitSlash "/login".toList = [[], "login".toList] := by decide
  unfold matchPath
  rw [if_neg (by decide), h]

theorem matchPath_register (p : String) :
    matchPath "/register" p =
      matchSegs [[], "register".toList] (dropTrailingEmpty (decodePath p.toList)) := by
  have h : splitSlash "/register".toList = [[], "register".toList] := by decide
  unfold matchPath
  rw [if_neg (by decide), h]

theorem matchPath_dashboard (p : String) :
    matchPath "/dashboard" p =
      matchSegs [[], "dashboard".toList] (dropTrailingEmpty (decodePath p.toList)) := by
  have h : splitSlash "/dashboard".toList = [[], "dashboard".toList] := by decide
  unfold matchPath
  rw [if_neg (by decide), h]

theorem matchPath_topic (p : String) :
    matchPath "/topic/:topicId" p =
      matchSegs [[], "topic".toList, ":topicId".toList]
        (dropTrailingEmpty (decodePath p.toList)) := by
  have h : splitSlash "/topic/:topicId".toList = [[], "topic".toList, ":topicId".toList] := by
    decide
  unfold matchPath
  rw [if_neg (by decide), h]

/-- Two static one-word patterns that differ up to case never match the same path. -/
theorem matchSegs_static_disjoint (q1 q2 : List Char) (h1 : ∀ name, q1 ≠ ':' :: name)
    (h2 : ∀ name, q2 ≠ ':' :: name) (hne : q1.map Char.toLower ≠ q2.map Char.toLower)
    (L : List (List Char)) (h : (matchSegs [[], q1] L).isSome = true) :
    matchSegs [[], q2] L = none := by
  obtain ⟨s, hL, hs⟩ := (matchSegs_static_isSome q1 h1 L).mp h
  cases hm : matchSegs [[], q2] L with
  | none => rfl
  | some ps =>
    have h' : (matchSegs [[], q2] L).isSome = true := by rw [hm]; rfl
    obtain ⟨s', hL', hs'⟩ := (matchSegs_static_isSome q2 h2 L).mp h'
    rw [hL] at hL'
    simp only [List.cons.injEq, and_true, true_and] at hL'
    subst hL'
    exact absurd (hs.trans hs'.symm) hne

/-- A path matched by a static one-word pattern is not matched by `/topic/:topicId`. -/
theorem matchSegs_static_not_topic (q : List Char) (hq : ∀ name, q ≠ ':' :: name)
    (L : List (List Char)) (h : (matchSegs [[], q] L).isSome = true) :
    matchSegs [[], "topic".toList, ":topicId".toList] L = none := by
  obtain ⟨s, hL, _⟩ := (matchSegs_static_isSome q hq L).mp h
  subst hL
  simp [matchSegs]

/-- A path matched by `/topic/:topicId` is not matched by a static one-word pattern. -/
theorem matchSegs_topic_not_static (q : List Char) (hq : ∀ name, q ≠ ':' :: name)
    (L : List (List Char))
    (h : (matchSegs [[], "topic".toList, ":topicId".toList] L).isSome = true) :
    matchSegs [[], q] L = none := by
  obtain ⟨s, t, hL⟩ := matchSegs_topic_isSome L h
  subst hL
  cases hm : matchSegs [[], q] [[], s, t] with
  | none => rfl
  | some ps =>
    have h' : (matchSegs [[], q] [[], s, t]).isSome = true := by rw [hm]; rfl
    obtain ⟨s', hL', _⟩ := (matchSegs_static_isSome q hq _).mp h'
    simp at hL'

theorem login_not_register (p : String) (h : (matchPath "/login" p).isSome = true) :
    matchPath "/register" p = none := by
  rw [matchPath_login] at h
  rw [matchPath_register]
  exact matchSegs_static_disjoint _ _ (by simp) (by simp) (by decide) _ h

theorem dashboard_not_login (p : String) (h : (matchPath "/dashboard" p).isSome = true) :
    matchPath "/login" p = none := by
  rw [matchPath_dashboard] at h
  rw [matchPath_login]
  exact matchSegs_static_disjoint _ _ (by simp) (by simp) (by decide) _ h

theorem dashboard_not_register (p : String) (h : (matchPath "/dashboard" p).isSome = true) :
    matchPath "/register" p = none := by
  rw [matchPath_dashboard] at h
  rw [matchPath_register]
  exact matchSegs_static_disjoint _ _ (by simp) (by simp) (by decide) _ h

theorem login_not_dashboard (p : String) (h : (matchPath "/login" p).isSome = true) :
    matchPath "/dashboard" p = none := by
  rw [matchPath_login] at h
  rw [matchPath_dashboard]
  exact matchSegs_static_disjoint _ _ (by simp) (by simp) (by decide) _ h

theorem register_not_dashboard (p : String) (h : (matchPath "/register" p).isSome = true) :
    matchPath "/dashboard" p = none := by
  rw [matchPath_register] at h
  rw [matchPath_dashboard]
  exact matchSegs_static_disjoint _ _ (by simp) (by simp) (by decide) _ h

theorem login_not_topic (p : String) (h : (matchPath "/login" p).isSome = true) :
    matchPath "/topic/:topicId" p = none := by
  rw [matchPath_login] at h
  rw [matchPath_topic]
  exact matchSegs_static_not_topic _ (by simp) _ h

theorem register_not_topic (p : String) (h : (matchPath "/register" p).isSome = true) :
    matchPath "/topic/:topicId" p = none := by
  rw [matchPath_register] at h
  rw [matchPath_topic]
  exact matchSegs_static_not_topic _ (by simp) _ h

theorem topic_not_login (p : String) (h : (matchPath "/topic/:topicId" p).isSome = true) :
    matchPath "/login" p = none := by
  rw [matchPath_topic] at h
  rw [matchPath_login]
  exact matchSegs_topic_not_static _ (by simp) _ h

theorem topic_not_register (p : String) (h : (matchPath "/topic/:topicId" p).isSome = true) :
    matchPath "/register" p = none := by
  rw [matchPath_topic] at h
  rw [matchPath_register]
  exact matchSegs_topic_not_static _ (by simp) _ h

theorem topic_not_dashboard (p : String) (h : (matchPath "/topic/:topicId" p).isSome = true) :
    matchPath "/dashboard" p = none := by
  rw [matchPath_topic] at h
  rw [matchPath_dashboard]
  exact matchSegs_topic_not_static _ (by simp) _ h

/-! ## The topic route on plain ids -/

/-- A run of characters without a slash is a single piece. -/
theorem splitSlash_noSlash (l : List Char) (h : '/' ∉ l) : splitSlash l = [l] := by
  induction l with
  | nil => rfl
  | cons c cs ih =>
    simp only [List.mem_cons, not_or] at h
    have hc : c ≠ '/' := fun e => h.1 e.symm
    simp [splitSlash, hc, ih h.2]

theorem splitSlash_topic (l : List Char) (h : '/' ∉ l) :
    splitSlash ("/topic/".toList ++ l) = [[], "topic".toList, l] := by
  have h1 : "/topic/".toList = ['/', 't', 'o', 'p', 'i', 'c', '/'] := rfl
  have h2 : "topic".toList = ['t', 'o', 'p', 'i', 'c'] := rfl
  rw [h1, h2]
  simp [splitSlash, splitSlash_noSlash l h]

theorem uriTokens_noPercent (l : List Char) (h : '%' ∉ l) :
    uriTokens l = some (l.map UriToken.unit) := by
  induction l with
  | nil => rfl
  | cons c cs ih =>
    simp only [List.mem_cons, not_or] at h
    have hc : c ≠ '%' := fun e => h.1 e.symm
    have hstep : uriTokens (c :: cs) =
        (uriTokens cs).map (fun ts => UriToken.unit c :: ts) := by
      conv_lhs => unfold uriTokens
      simp only [if_neg hc]
    rw [hstep, ih h.2]
    rfl

theorem decodeOctets_units (l : List Char) :
    decodeOctets (l.map UriToken.unit) = some l := by
  induction l with
  | nil => rfl
  | cons c cs ih =>
    have hstep : decodeOctets (UriToken.unit c :: cs.map UriToken.unit) =
        (decodeOctets (cs.map UriToken.unit)).map (fun r => c :: r) := rfl
    rw [List.map_cons, hstep, ih]
    rfl

/-- A component without escapes decodes to itself. -/
theorem decodeURIComponent_noPercent (l : List Char) (h : '%' ∉ l) :
    decodeURIComponent l = some l := by
  simp [decodeURIComponent, uriTokens_noPercent l h, decodeOctets_units]

theorem escapeSlash_noSlash (l : List Char) (h : '/' ∉ l) : escapeSlash l = l := by
  induction l with
  | nil => rfl
  | cons c cs ih =>
    simp only [List.mem_cons, not_or] at h
    have hc : c ≠ '/' := fun e => h.1 e.symm
    simp [escapeSlash, hc, ih h.2]

theorem unescapeSlash_noPercent (l : List Char) (h : '%' ∉ l) : unescapeSlash l = l := by
  induction l with
  | nil => simp [unescapeSlash]
  | cons c cs ih =>
    simp only [List.mem_cons, not_or] at h
    rw [unescapeSlash]
    · rw [ih h.2]
    · intro rest hh _
      exact h.1 hh.symm

theorem decodePath_topic (l : List Char) (hs : '/' ∉ l) (hp : '%' ∉ l) :
    decodePath ("/topic/".toList ++ l) = [[], "topic".toList, l] := by
  unfold decodePath
  rw [splitSlash_topic l hs]
  have h1 : decodeURIComponent [] = some [] := rfl
  have h2 : decodeURIComponent "topic".toList = some "topic".toList := by decide
  have h3 : escapeSlash "topic".toList = "topic".toList := by decide
  have h4 : decodeAll [[], "topic".toList, l] = some [[], "topic".toList, l] := by
    simp only [decodeAll, h1, h2, decodeURIComponent_noPercent l hp]
  rw [h4]
  show [escapeSlash [], escapeSlash "topic".toList, escapeSlash l] = _
  rw [h3, escapeSlash_noSlash l hs]
  rfl

theorem dropTrailingEmpty_topic (l : List Char) (hne : l ≠ []) :
    dropTrailingEmpty [[], "topic".toList, l] = [[], "topic".toList, l] := by
  cases l with
  | nil => exact absurd rfl hne
  | cons c cs => simp [dropTrailingEmpty, List.dropWhile]

/-- The topic route binds `topicId` to the last piece of `/topic/<id>`, for
every non-empty id free of slashes and escapes. -/
theorem matchPath_topic_id (id : String) (hne : id ≠ "") (hs : '/' ∉ id.toList)
    (hp : '%' ∉ id.toList) :
    matchPath "/topic/:topicId" ("/topic/" ++ id) = some [("topicId", id)] := by
  have hl : id.toList ≠ [] := by
    intro h
    apply hne
    cases id
    simp_all
  rw [matchPath_topic]
  have : ("/topic/" ++ id).toList = "/topic/".toList ++ id.toList := by simp
  rw [this, decodePath_topic _ hs hp, dropTrailingEmpty_topic _ hl]
  have h2 : "topic".toList = ['t', 'o', 'p', 'i', 'c'] := rfl
  have h3 : ":topicId".toList = [':', 't', 'o', 'p', 'i', 'c', 'I', 'd'] := rfl
  rw [h2, h3]
  simp [matchSegs]
  exact ⟨hl, by rw [show id.data = id.toList from rfl, unescapeSlash_noPercent _ hp]; rfl⟩

/-! ## The two route tables, case by case -/

theorem App_none_eq (p : String) :
    App none p =
      match matchPath "/register" p with
      | some _ => some Element.Register
      | none =>
        match matchPath "/login" p with
        | some _ => some Element.Login
        | none => some (Element.Navigate "/login") := by
  simp only [App, Routes, matchPath_star]

theorem App_some_eq (s : Session) (p : String) :
    App (some s) p =
      match matchPath "/dashboard" p with
      | some _ => some Element.Dashboard
      | none =>
        match matchPath "/topic/:topicId" p with
        | some params => some (Element.TopicView (params.lookup "topicId"))
        | none => some (Element.Navigate "/dashboard") := by
  simp only [App, Routes, matchPath_star]

/-! ## C1: session-gated route resolution -/

/-- C1. Route resolution of `App` is session-gated for every path.  Without a
session every path renders Login, Register or the redirect to `/login`
(a path matching `/login` renders Login, one matching `/register` renders
Register, every other path, among them those matching `/dashboard` and
`/topic/:topicId`, redirects to `/login`) and resolves within two evaluations
to Login or Register.  With a session every path renders Dashboard, TopicView
or the redirect to `/dashboard` (a path matching `/dashboard` renders
Dashboard, one matching `/topic/:topicId` renders TopicView, every other path,
among them those matching `/login` and `/register`, redirects to
`/dashboard`) and resolves within two evaluations to Dashboard or TopicView.
No path renders Dashboard or TopicView without a session, none renders Login
or Register with one.  The topic route is pinned for every plain id:
`/topic/<id>` renders the topic view of `id` with a session and redirects to
`/login` without one; escaped, upper-case and slash-terminated spellings of
the four paths are matched like the paths themselves. -/
theorem App_session_gated (s : Session) (p : String) :
    -- without a session
    (App none p = some Element.Login ∨ App none p = some Element.Register ∨
        App none p = some (Element.Navigate "/login")) ∧
    ((matchPath "/login" p).isSome = true → App none p = some Element.Login) ∧
    ((matchPath "/register" p).isSome = true → App none p = some Element.Register) ∧
    (matchPath "/login" p = none → matchPath "/register" p = none →
        App none p = some (Element.Navigate "/login")) ∧
    ((matchPath "/dashboard" p).isSome = true ∨ (matchPath "/topic/:topicId" p).isSome = true →
        App none p = some (Element.Navigate "/login")) ∧
    (resolve 2 ⟨none, p⟩ = some (⟨none, p⟩, Element.Login) ∨
      resolve 2 ⟨none, p⟩ = some (⟨none, p⟩, Element.Register) ∨
      resolve 2 ⟨none, p⟩ = some (⟨none, "/login"⟩, Element.Login)) ∧
    (App none p ≠ some Element.Dashboard ∧ ∀ t, App none p ≠ some (Element.TopicView t)) ∧
    (App none "/login" = some Element.Login ∧ App none "/register" = some Element.Register ∧
      App none "/dashboard" = some (Element.Navigate "/login")) ∧
    -- with a session
    (App (some s) p = some Element.Dashboard ∨ (∃ t, App (some s) p = some (Element.TopicView t)) ∨
        App (some s) p = some (Element.Navigate "/dashboard")) ∧
    ((matchPath "/dashboard" p).isSome = true → App (some s) p = some Element.Dashboard) ∧
    ((matchPath "/topic/:topicId" p).isSome = true →
        ∃ t, App (some s) p = some (Element.TopicView t)) ∧
    (matchPath "/dashboard" p = none → matchPath "/topic/:topicId" p = none →
        App (some s) p = some (Element.Navigate "/dashboard")) ∧
    ((matchPath "/login" p).isSome = true ∨ (matchPath "/register" p).isSome = true →
        App (some s) p = some (Element.Navigate "/dashboard")) ∧
    (resolve 2 ⟨some s, p⟩ = some (⟨some s, p⟩, Element.Dashboard) ∨
      (∃ t, resolve 2 ⟨some s, p⟩ = some (⟨some s, p⟩, Element.TopicView t)) ∨
      resolve 2 ⟨some s, p⟩ = some (⟨some s, "/dashboard"⟩, Element.Dashboard)) ∧
    (App (some s) p ≠ some Element.Login ∧ App (some s) p ≠ some Element.Register) ∧
    (App (some s) "/dashboard" = some Element.Dashboard ∧
      App (some s) "/login" = some (Element.Navigate "/dashboard") ∧
      App (some s) "/register" = some (Element.Navigate "/dashboard")) ∧
    -- the topic route, for every plain id
    (∀ id : String, id ≠ "" → '/' ∉ id.toList → '%' ∉ id.toList →
      App (some s) ("/topic/" ++ id) = some (Element.TopicView (some id)) ∧
      App none ("/topic/" ++ id) = some (Element.Navigate "/login")) ∧
    -- escapes, letter case and trailing slashes
    (App none "/%6Cogin" = some Element.Login ∧ App none "/login/" = some Element.Login ∧
      App none "/Register" = some Element.Register ∧
      App none "/topic/a%20b" = some (Element.Navigate "/login") ∧
      App (some s) "/%64ashboard" = some Element.Dashboard ∧
      App (some s) "/dashboard/" = some Element.Dashboard ∧
      App (some s) "/topic/a%20b" = some (Element.TopicView (some "a b")) ∧
      App (some s) "/topic/a%2Fb" = some (Element.TopicView (some "a/b")) ∧
      App (some s) "/topic/" = some (Element.Navigate "/dashboard") ∧
      App (some s) "/topic/4/2" = some (Element.Navigate "/dashboard")) := by
  have hn := App_none_eq p
  have hs := App_some_eq s p
  have hL : App none "/login" = some Element.Login := by decide
  have hD : App (some s) "/dashboard" = some Element.Dashboard := by
    rw [App_some_eq]; rfl
  refine ⟨?_, ?_, ?_, ?_, ?_, ?_, ?_, ⟨hL, by decide, by decide⟩,
    ?_, ?_, ?_, ?_, ?_, ?_, ?_, ⟨hD, ?_, ?_⟩, ?_,
    ⟨by decide, by decide, by decide, by decide, ?_, ?_, ?_, ?_, ?_, ?_⟩⟩
  · rw [hn]; cases matchPath "/register" p <;> cases matchPath "/login" p <;> simp
  · intro h
    rw [hn, login_not_register p h]
    cases hm : matchPath "/login" p with
    | none => rw [hm] at h; simp at h
    | some ps => rfl
  · intro h
    rw [hn]
    cases hm : matchPath "/register" p with
    | none => rw [hm] at h; simp at h
    | some ps => rfl
  · intro h1 h2
    rw [hn, h1, h2]
  · intro h
    rcases h with h | h
    · rw [hn, dashboard_not_login p h, dashboard_not_register p h]
    · rw [hn, topic_not_login p h, topic_not_register p h]
  · simp only [resolve, hn]
    cases matchPath "/register" p <;> cases matchPath "/login" p <;> simp [hL]
  · rw [hn]
    cases matchPath "/register" p <;> cases matchPath "/login" p <;> simp
  · rw [hs]
    cases matchPath "/dashboard" p <;> cases matchPath "/topic/:topicId" p <;> simp
  · intro h
    rw [hs]
    cases hm : matchPath "/dashboard" p with
    | none => rw [hm] at h; simp at h
    | some ps => rfl
  · intro h
    rw [hs, topic_not_dashboard p h]
    cases hm : matchPath "/topic/:topicId" p with
    | none => rw [hm] at h; simp at h
    | some ps => exact ⟨_, rfl⟩
  · intro h1 h2
    rw [hs, h1, h2]
  · intro h
    rcases h with h | h
    · rw [hs, login_not_dashboard p h, login_not_topic p h]
    · rw [hs, register_not_dashboard p h, register_not_topic p h]
  · simp only [resolve, hs]
    cases matchPath "/dashboard" p <;> cases matchPath "/topic/:topicId" p <;> simp [hD]
  · rw [hs]
    cases matchPath "/dashboard" p <;> cases matchPath "/topic/:topicId" p <;> simp
  · rw [App_some_eq]; rfl
  · rw [App_some_eq]; rfl
  · intro id hne hsl hpc
    have hm := matchPath_topic_id id hne hsl hpc
    have hsome : (matchPath "/topic/:topicId" ("/topic/" ++ id)).isSome = true := by
      rw [hm]; rfl
    constructor
    · rw [App_some_eq, topic_not_dashboard _ hsome, hm]
      rfl
    · rw [App_none_eq, topic_not_login _ hsome, topic_not_register _ hsome]
  · rw [App_some_eq]; rfl
  · rw [App_some_eq]; rfl
  · rw [App_some_eq]; rfl
  · rw [App_some_eq]; rfl
  · rw [App_some_eq]; rfl
  · rw [App_some_eq]; rfl

/-- C1 at `/topic/42` and `/Login`: without a session `/topic/42` redirects
to `/login`; with the session of user `u1` the path `/Login` redirects to
`/dashboard` and `/topic/42` renders the topic view of topic `42`. -/
theorem App_session_gated_witness :
    (matchPath "/topic/:topicId" "/topic/42").isSome = true ∧
    App none "/topic/42" = some (Element.Navigate "/login") ∧
    (matchPath "/login" "/Login").isSome = true ∧
    App (some ⟨"u1"⟩) "/Login" = some (Element.Navigate "/dashboard") ∧
    App (some ⟨"u1"⟩) ("/topic/" ++ "42") = some (Element.TopicView (some "42")) :=
  ⟨by decide,
   (App_session_gated ⟨"u1"⟩ "/topic/42").2.2.2.2.1 (Or.inr (by decide)),
   by decide,
   (App_session_gated ⟨"u1"⟩ "/Login").2.2.2.2.2.2.2.2.2.2.2.2.1 (Or.inl (by decide)),
   ((App_session_gated ⟨"u1"⟩ "/Login").2.2.2.2.2.2.2.2.2.2.2.2.2.2.2.2.1 "42"
      (by decide) (by decide) (by decide)).1⟩

/-! ## C2: losing the session leads to the login screen -/

/-- C2. For every path `p` the authenticated router is asked to show, the
router settles on a prior location `prior`: `p` itself when `App` renders
Dashboard or TopicView there (escaped spellings such as `/%64ashboard`
included), `/dashboard` when `App` redirects.  When the session-change
callback then sets the session to null, the next resolution of the router
renders the redirect to `/login` and, at `/login`, the login screen. -/
theorem session_absent_renders_login (s : Session) (p : String) :
    (∃ prior e,
      resolve 2 ⟨some s, p⟩ = some (prior, e) ∧
      prior.session = some s ∧
      prior.pathname =
        (if App (some s) p = some (Element.Navigate "/dashboard") then "/dashboard" else p) ∧
      (onAuthStateChange prior none).session = none ∧
      (onAuthStateChange prior none).pathname = prior.pathname ∧
      App none prior.pathname = some (Element.Navigate "/login") ∧
      resolve 2 (onAuthStateChange prior none) = some (⟨none, "/login"⟩, Element.Login)) ∧
    (resolve 2 ⟨some s, "/%64ashboard"⟩ = some (⟨some s, "/%64ashboard"⟩, Element.Dashboard) ∧
      resolve 2 (onAuthStateChange ⟨some s, "/%64ashboard"⟩ none) =
        some (⟨none, "/login"⟩, Element.Login) ∧
      resolve 2 ⟨some s, "/topic/a%20b"⟩ =
        some (⟨some s, "/topic/a%20b"⟩, Element.TopicView (some "a b")) ∧
      resolve 2 (onAuthStateChange ⟨some s, "/topic/a%20b"⟩ none) =
        some (⟨none, "/login"⟩, Element.Login)) := by
  have hs := App_some_eq s p
  have hD : App (some s) "/dashboard" = some Element.Dashboard := by
    rw [App_some_eq]; rfl
  have hL : App none "/login" = some Element.Login := by decide
  have key : ∀ q : String,
      ((matchPath "/dashboard" q).isSome = true ∨ (matchPath "/topic/:topicId" q).isSome = true) →
      App none q = some (Element.Navigate "/login") ∧
      resolve 2 (onAuthStateChange ⟨some s, q⟩ none) = some (⟨none, "/login"⟩, Element.Login) := by
    intro q hq
    have hq' : App none q = some (Element.Navigate "/login") := by
      rcases hq with h | h
      · rw [App_none_eq, dashboard_not_login q h, dashboard_not_register q h]
      · rw [App_none_eq, topic_not_login q h, topic_not_register q h]
    refine ⟨hq', ?_⟩
    simp [resolve, onAuthStateChange, hq', hL]
  have hE1 : App (some s) "/%64ashboard" = some Element.Dashboard := by
    rw [App_some_eq]; rfl
  have hE2 : App (some s) "/topic/a%20b" = some (Element.TopicView (some "a b")) := by
    rw [App_some_eq]; rfl
  refine ⟨?_, by simp [resolve, hE1], (key "/%64ashboard" (Or.inl (by decide))).2,
    by simp [resolve, hE2], (key "/topic/a%20b" (Or.inr (by decide))).2⟩
  cases hd : matchPath "/dashboard" p with
  | some ps =>
    have h1 : App (some s) p = some Element.Dashboard := by rw [hs, hd]
    have hk := key p (Or.inl (by rw [hd]; rfl))
    exact ⟨⟨some s, p⟩, Element.Dashboard, by simp [resolve, h1], rfl, by simp [h1],
      rfl, rfl, hk.1, hk.2⟩
  | none =>
    cases ht : matchPath "/topic/:topicId" p with
    | some ps =>
      have h1 : App (some s) p = some (Element.TopicView (ps.lookup "topicId")) := by
        rw [hs, hd, ht]
      have hk := key p (Or.inr (by rw [ht]; rfl))
      exact ⟨⟨some s, p⟩, Element.TopicView (ps.lookup "topicId"), by simp [resolve, h1],
        rfl, by simp [h1], rfl, rfl, hk.1, hk.2⟩
    | none =>
      have h1 : App (some s) p = some (Element.Navigate "/dashboard") := by
        rw [hs, hd, ht]
      have hk := key "/dashboard" (Or.inl (by decide))
      exact ⟨⟨some s, "/dashboard"⟩, Element.Dashboard, by simp [resolve, h1, hD],
        rfl, by simp [h1], rfl, rfl, hk.1, hk.2⟩

/-! ## The branches of `handleRegister` -/

theorem handleRegister_mismatch {σ : Type} (sb : Supabase σ) (w : σ) (st : RegisterState)
    (h : st.password ≠ st.confirmPassword) :
    Register.handleRegister sb w st = ⟨w, st, [Effect.alert "A jelszavak nem egyeznek!"]⟩ := by
  unfold Register.handleRegister
  rw [if_pos h]

theorem handleRegister_terms {σ : Type} (sb : Supabase σ) (w : σ) (st : RegisterState)
    (h : st.password = st.confirmPassword) (ht : st.acceptedTerms = false) :
    Register.handleRegister sb w st = ⟨w, st, [Effect.alert "Az ÁSZF elfogadása kötelező!"]⟩ := by
  unfold Register.handleRegister
  rw [if_neg (not_not.mpr h), ht]
  rfl

theorem handleRegister_error {σ : Type} (sb : Supabase σ) (w : σ) (st : RegisterState)
    (h : st.password = st.confirmPassword) (ht : st.acceptedTerms = true) (error : ApiError)
    (hr : (sb.auth.signUp st.email st.password st.fullName w).1 = some error) :
    Register.handleRegister sb w st =
      ⟨(sb.auth.signUp st.email st.password st.fullName w).2, { st with loading := false },
        [Effect.call (Call.signUp st.email st.password st.fullName),
         Effect.alert error.message]⟩ := by
  unfold Register.handleRegister
  rw [if_neg (not_not.mpr h), ht]
  simp only [hr]
  rfl

theorem handleRegister_ok {σ : Type} (sb : Supabase σ) (w : σ) (st : RegisterState)
    (h : st.password = st.confirmPassword) (ht : st.acceptedTerms = true)
    (hr : (sb.auth.signUp st.email st.password st.fullName w).1 = none) :
    Register.handleRegister sb w st =
      ⟨(sb.auth.signUp st.email st.password st.fullName w).2, { st with loading := false },
        [Effect.call (Call.signUp st.email st.password st.fullName),
         Effect.alert "Regisztráció sikeres! Kérjük, igazold az email címed.",
         Effect.navigate "/login"]⟩ := by
  unfold Register.handleRegister
  rw [if_neg (not_not.mpr h), ht]
  simp only [hr]
  rfl

/-! ## The branches of the other handlers -/

theorem handleLogin_error {σ : Type} (sb : Supabase σ) (w : σ) (st : LoginState)
    (error : ApiError) (hr : (sb.auth.signInWithPassword st.email st.password w).1 = some error) :
    Login.handleLogin sb w st =
      ⟨(sb.auth.signInWithPassword st.email st.password w).2, { st with loading := false },
        [Effect.call (Call.signInWithPassword st.email st.password),
         Effect.alert error.message]⟩ := by
  unfold Login.handleLogin
  simp only [hr]

theorem fetchTopics_noUser {σ : Type} (sb : Supabase σ) (w : σ) (st : DashboardState)
    (hu : (sb.auth.getUser w).1 = none) :
    Dashboard.fetchTopics sb w st =
      ⟨(sb.auth.getUser w).2, st, [Effect.call Call.getUser, Effect.typeError]⟩ := by
  unfold Dashboard.fetchTopics
  simp only [hu]

theorem fetchTopics_error {σ : Type} (sb : Supabase σ) (w : σ) (st : DashboardState)
    (user : User) (error : ApiError) (hu : (sb.auth.getUser w).1 = some user)
    (hr : (sb.db.selectTopics user.id (sb.auth.getUser w).2).1 = Except.error error) :
    Dashboard.fetchTopics sb w st =
      ⟨(sb.db.selectTopics user.id (sb.auth.getUser w).2).2, st,
        [Effect.call Call.getUser, Effect.call (Call.selectTopics user.id),
         Effect.consoleError error]⟩ := by
  unfold Dashboard.fetchTopics
  simp only [hu, hr]

theorem fetchTopics_ok {σ : Type} (sb : Supabase σ) (w : σ) (st : DashboardState)
    (user : User) (data : List Topic) (hu : (sb.auth.getUser w).1 = some user)
    (hr : (sb.db.selectTopics user.id (sb.auth.getUser w).2).1 = Except.ok data) :
    Dashboard.fetchTopics sb w st =
      ⟨(sb.db.selectTopics user.id (sb.auth.getUser w).2).2, { st with topics := data },
        [Effect.call Call.getUser, Effect.call (Call.selectTopics user.id)]⟩ := by
  unfold Dashboard.fetchTopics
  simp only [hu, hr]

/-- The function `fetchTopics` never issues an insert. -/
theorem fetchTopics_no_insert {σ : Type} (sb : Supabase σ) (w : σ) (st : DashboardState) :
    (calls (Dashboard.fetchTopics sb w st).effects).filter Call.isInsert = [] := by
  cases hu : (sb.auth.getUser w).1 with
  | none => simp [fetchTopics_noUser sb w st hu, calls, Call.isInsert]
  | some user =>
    cases hr : (sb.db.selectTopics user.id (sb.auth.getUser w).2).1 with
    | error error => simp [fetchTopics_error sb w st user error hu hr, calls, Call.isInsert]
    | ok data => simp [fetchTopics_ok sb w st user data hu hr, calls, Call.isInsert]

theorem handleAddTopic_blank {σ : Type} (sb : Supabase σ) (w : σ) (st : DashboardState)
    (h : jsTrim st.newTopic = "") :
    Dashboard.handleAddTopic sb w st = ⟨w, st, []⟩ := by
  unfold Dashboard.handleAddTopic
  rw [if_pos h]

theorem handleAddTopic_noUser {σ : Type} (sb : Supabase σ) (w : σ) (st : DashboardState)
    (h : jsTrim st.newTopic ≠ "") (hu : (sb.auth.getUser w).1 = none) :
    Dashboard.handleAddTopic sb w st =
      ⟨(sb.auth.getUser w).2, st, [Effect.call Call.getUser, Effect.typeError]⟩ := by
  unfold Dashboard.handleAddTopic
  rw [if_neg h]
  simp only [hu]

theorem handleAddTopic_error {σ : Type} (sb : Supabase σ) (w : σ) (st : DashboardState)
    (user : User) (error : ApiError) (h : jsTrim st.newTopic ≠ "")
    (hu : (sb.auth.getUser w).1 = some user)
    (hr : (sb.db.insertTopic st.newTopic user.id (sb.auth.getUser w).2).1 = some error) :
    Dashboard.handleAddTopic sb w st =
      ⟨(sb.db.insertTopic st.newTopic user.id (sb.auth.getUser w).2).2, st,
        [Effect.call Call.getUser, Effect.call (Call.insertTopic st.newTopic user.id),
         Effect.alert error.message]⟩ := by
  unfold Dashboard.handleAddTopic
  rw [if_neg h]
  simp only [hu, hr]

theorem handleAddTopic_ok {σ : Type} (sb : Supabase σ) (w : σ) (st : DashboardState)
    (user : User) (h : jsTrim st.newTopic ≠ "")
    (hu : (sb.auth.getUser w).1 = some user)
    (hr : (sb.db.insertTopic st.newTopic user.id (sb.auth.getUser w).2).1 = none) :
    Dashboard.handleAddTopic sb w st =
      ⟨(Dashboard.fetchTopics sb (sb.db.insertTopic st.newTopic user.id (sb.auth.getUser w).2).2
          { st with newTopic := "" }).world,
        (Dashboard.fetchTopics sb (sb.db.insertTopic st.newTopic user.id (sb.auth.getUser w).2).2
          { st with newTopic := "" }).state,
        [Effect.call Call.getUser, Effect.call (Call.insertTopic st.newTopic user.id)] ++
        (Dashboard.fetchTopics sb (sb.db.insertTopic st.newTopic user.id (sb.auth.getUser w).2).2
          { st with newTopic := "" }).effects⟩ := by
  unfold Dashboard.handleAddTopic
  rw [if_neg h]
  simp only [hu, hr]

theorem fetchTopic_error {σ : Type} (sb : Supabase σ) (w : σ) (st : TopicViewState)
    (error : ApiError) (hr : (sb.db.selectTopic st.topicId w).1 = Except.error error) :
    TopicView.fetchTopic sb w st =
      ⟨(sb.db.selectTopic st.topicId w).2, st,
        [Effect.call (Call.selectTopic st.topicId), Effect.alert error.message]⟩ := by
  unfold TopicView.fetchTopic
  simp only [hr]

theorem fetchCards_error {σ : Type} (sb : Supabase σ) (w : σ) (st : TopicViewState)
    (error : ApiError) (hr : (sb.db.selectCards st.topicId w).1 = Except.error error) :
    TopicView.fetchCards sb w st =
      ⟨(sb.db.selectCards st.topicId w).2, st,
        [Effect.call (Call.selectCards st.topicId), Effect.alert error.message]⟩ := by
  unfold TopicView.fetchCards
  simp only [hr]

theorem fetchCards_ok {σ : Type} (sb : Supabase σ) (w : σ) (st : TopicViewState)
    (data : List Card) (hr : (sb.db.selectCards st.topicId w).1 = Except.ok data) :
    TopicView.fetchCards sb w st =
      ⟨(sb.db.selectCards st.topicId w).2, { st with cards := data },
        [Effect.call (Call.selectCards st.topicId)]⟩ := by
  unfold TopicView.fetchCards
  simp only [hr]

/-- The function `fetchCards` never issues an insert. -/
theorem fetchCards_no_insert {σ : Type} (sb : Supabase σ) (w : σ) (st : TopicViewState) :
    (calls (TopicView.fetchCards sb w st).effects).filter Call.isInsert = [] := by
  cases hr : (sb.db.selectCards st.topicId w).1 with
  | error error => simp [fetchCards_error sb w st error hr, calls, Call.isInsert]
  | ok data => simp [fetchCards_ok sb w st data hr, calls, Call.isInsert]

theorem handleAddCard_blank {σ : Type} (sb : Supabase σ) (w : σ) (st : TopicViewState)
    (h : jsTrim st.question = "" ∨ jsTrim st.answer = "") :
    TopicView.handleAddCard sb w st = ⟨w, st, []⟩ := by
  unfold TopicView.handleAddCard
  rw [if_pos (by simpa using h)]

theorem handleAddCard_error {σ : Type} (sb : Supabase σ) (w : σ) (st : TopicViewState)
    (error : ApiError) (hq : jsTrim st.question ≠ "") (ha : jsTrim st.answer ≠ "")
    (hr : (sb.db.insertCard st.topicId st.question st.answer w).1 = some error) :
    TopicView.handleAddCard sb w st =
      ⟨(sb.db.insertCard st.topicId st.question st.answer w).2, st,
        [Effect.call (Call.insertCard st.topicId st.question st.answer),
         Effect.alert error.message]⟩ := by
  unfold TopicView.handleAddCard
  rw [if_neg (by simp [hq, ha])]
  simp only [hr]

theorem handleAddCard_ok {σ : Type} (sb : Supabase σ) (w : σ) (st : TopicViewState)
    (hq : jsTrim st.question ≠ "") (ha : jsTrim st.answer ≠ "")
    (hr : (sb.db.insertCard st.topicId st.question st.answer w).1 = none) :
    TopicView.handleAddCard sb w st =
      ⟨(TopicView.fetchCards sb (sb.db.insertCard st.topicId st.question st.answer w).2
          { st with question := "", answer := "" }).world,
        (TopicView.fetchCards sb (sb.db.insertCard st.topicId st.question st.answer w).2
          { st with question := "", answer := "" }).state,
        Effect.call (Call.insertCard st.topicId st.question st.answer) ::
        (TopicView.fetchCards sb (sb.db.insertCard st.topicId st.question st.answer w).2
          { st with question := "", answer := "" }).effects⟩ := by
  unfold TopicView.handleAddCard
  rw [if_neg (by simp [hq, ha])]
  simp only [hr]

theorem calls_append (l1 l2 : List Effect) : calls (l1 ++ l2) = calls l1 ++ calls l2 := by
  induction l1 with
  | nil => rfl
  | cons e es ih => cases e <;> simp [calls, ih]

/-! ## C3, C4: registration -/

/-- C3. For every registration form state and every provider, `handleRegister`
issues a sign-up call if and only if the password equals the confirmation and
the terms are accepted; when the passwords differ or the terms are not
accepted it issues no provider call at all, navigates nowhere and leaves the
form state (with `loading`) and the provider untouched. -/
theorem handleRegister_signUp_iff_valid {σ : Type} (sb : Supabase σ) (w : σ)
    (st : RegisterState) :
    ((∃ email password full_name,
        Call.signUp email password full_name ∈
          calls (Register.handleRegister sb w st).effects) ↔
      (st.password = st.confirmPassword ∧ st.acceptedTerms = true)) ∧
    ((st.password ≠ st.confirmPassword ∨ st.acceptedTerms = false) →
      calls (Register.handleRegister sb w st).effects = [] ∧
      navigations (Register.handleRegister sb w st).effects = [] ∧
      (Register.handleRegister sb w st).state = st ∧
      (Register.handleRegister sb w st).world = w) := by
  by_cases hp : st.password = st.confirmPassword
  · cases ht : st.acceptedTerms with
    | false => simp [handleRegister_terms sb w st hp ht, calls, navigations]
    | true =>
      cases hr : (sb.auth.signUp st.email st.password st.fullName w).1 with
      | none =>
        rw [handleRegister_ok sb w st hp ht hr]
        simp only [calls, List.mem_cons, Call.signUp.injEq]
        exact ⟨⟨fun _ => ⟨hp, trivial⟩, fun _ => ⟨_, _, _, Or.inl ⟨rfl, rfl, rfl⟩⟩⟩,
          fun h => by rcases h with h | h; exact absurd hp h; cases h⟩
      | some error =>
        rw [handleRegister_error sb w st hp ht error hr]
        simp only [calls, List.mem_cons, Call.signUp.injEq]
        exact ⟨⟨fun _ => ⟨hp, trivial⟩, fun _ => ⟨_, _, _, Or.inl ⟨rfl, rfl, rfl⟩⟩⟩,
          fun h => by rcases h with h | h; exact absurd hp h; cases h⟩
  · simp [handleRegister_mismatch sb w st hp, hp, calls, navigations]

/-- C3 at a form whose passwords differ (`p1` against `p2`): no call, no
navigation, state unchanged. -/
theorem handleRegister_signUp_iff_valid_witness :
    calls (Register.handleRegister store sampleWorld
      ⟨"Ann", "a@x.com", "p1", "p2", true, false⟩).effects = [] ∧
    navigations (Register.handleRegister store sampleWorld
      ⟨"Ann", "a@x.com", "p1", "p2", true, false⟩).effects = [] ∧
    (Register.handleRegister store sampleWorld
      ⟨"Ann", "a@x.com", "p1", "p2", true, false⟩).state =
        ⟨"Ann", "a@x.com", "p1", "p2", true, false⟩ :=
  have h := (handleRegister_signUp_iff_valid store sampleWorld
    ⟨"Ann", "a@x.com", "p1", "p2", true, false⟩).2 (Or.inl (by decide))
  ⟨h.1, h.2.1, h.2.2.1⟩

/-- C4. For every registration submission that passes validation exactly one
provider call is issued, the sign-up carrying the entered email, password and
`full_name`; when the provider reports success the user is navigated to
`/login`, when it reports an error no navigation happens, and `loading` ends
false in both cases (no other field of the form changes). -/
theorem handleRegister_valid {σ : Type} (sb : Supabase σ) (w : σ) (st : RegisterState)
    (hpw : st.password = st.confirmPassword) (hterms : st.acceptedTerms = true) :
    calls (Register.handleRegister sb w st).effects =
      [Call.signUp st.email st.password st.fullName] ∧
    ((sb.auth.signUp st.email st.password st.fullName w).1 = none →
      navigations (Register.handleRegister sb w st).effects = ["/login"]) ∧
    (∀ error, (sb.auth.signUp st.email st.password st.fullName w).1 = some error →
      navigations (Register.handleRegister sb w st).effects = []) ∧
    (Register.handleRegister sb w st).state = { st with loading := false } ∧
    (Register.handleRegister sb w st).state.loading = false := by
  cases hr : (sb.auth.signUp st.email st.password st.fullName w).1 with
  | none => simp [handleRegister_ok sb w st hpw hterms hr, calls, navigations]
  | some error => simp [handleRegister_error sb w st hpw hterms error hr, calls, navigations]

/-- C4 at the scenario of the specification: email `a@x.com`, password `p1`,
confirmation `p1`, terms accepted, provider accepting the sign-up. -/
theorem handleRegister_valid_witness :
    calls (Register.handleRegister store sampleWorld
        ⟨"Ann", "a@x.com", "p1", "p1", true, false⟩).effects =
      [Call.signUp "a@x.com" "p1" "Ann"] ∧
    navigations (Register.handleRegister store sampleWorld
        ⟨"Ann", "a@x.com", "p1", "p1", true, false⟩).effects = ["/login"] ∧
    (Register.handleRegister store sampleWorld
        ⟨"Ann", "a@x.com", "p1", "p1", true, false⟩).state.loading = false :=
  have h := handleRegister_valid store sampleWorld
    ⟨"Ann", "a@x.com", "p1", "p1", true, false⟩ (by decide) (by decide)
  ⟨h.1, h.2.1 (by decide), h.2.2.2.2⟩

/-! ## C5: inserts only for non-blank fields -/

/-- C5, the claim as stated fails for topics when `getUser` replies a null
user: on the reference store without a current user the non-blank name
`Biology` issues no insert at all; reading `user.id` raises a TypeError
right after the `getUser` call. -/
theorem handleAddTopic_null_user_no_insert :
    jsTrim "Biology" ≠ "" ∧
    (store.auth.getUser signedOutWorld).1 = none ∧
    (calls (Dashboard.handleAddTopic store signedOutWorld ⟨[], "Biology"⟩).effects).filter
      Call.isInsert = [] ∧
    (Dashboard.handleAddTopic store signedOutWorld ⟨[], "Biology"⟩).effects =
      [Effect.call Call.getUser, Effect.typeError] := by
  refine ⟨by decide, rfl, by decide, by decide⟩

/-- C5 as amended. A create action issues an insert only when every required
text field is non-empty after trimming.  With a topic name that trims to the
empty string `handleAddTopic` issues no provider call and changes nothing
(input, topic list, provider); with a question or an answer that trims to the
empty string `handleAddCard` does the same.  Otherwise exactly one insert is
issued: for topics, when `getUser` returns a current user, the insert of the
entered name under that user id; for cards the insert of the entered question
and answer under the current `topicId`. -/
theorem create_inserts_iff_nonblank {σ : Type} (sb : Supabase σ) (w : σ)
    (dst : DashboardState) (tst : TopicViewState) :
    (jsTrim dst.newTopic = "" → Dashboard.handleAddTopic sb w dst = ⟨w, dst, []⟩) ∧
    ((jsTrim tst.question = "" ∨ jsTrim tst.answer = "") →
      TopicView.handleAddCard sb w tst = ⟨w, tst, []⟩) ∧
    ((∃ c ∈ calls (Dashboard.handleAddTopic sb w dst).effects, c.isInsert = true) →
      jsTrim dst.newTopic ≠ "") ∧
    ((∃ c ∈ calls (TopicView.handleAddCard sb w tst).effects, c.isInsert = true) →
      jsTrim tst.question ≠ "" ∧ jsTrim tst.answer ≠ "") ∧
    (jsTrim dst.newTopic ≠ "" → ∀ user, (sb.auth.getUser w).1 = some user →
      (calls (Dashboard.handleAddTopic sb w dst).effects).filter Call.isInsert =
        [Call.insertTopic dst.newTopic user.id]) ∧
    (jsTrim tst.question ≠ "" → jsTrim tst.answer ≠ "" →
      (calls (TopicView.handleAddCard sb w tst).effects).filter Call.isInsert =
        [Call.insertCard tst.topicId tst.question tst.answer]) := by
  refine ⟨handleAddTopic_blank sb w dst, handleAddCard_blank sb w tst, ?_, ?_, ?_, ?_⟩
  · intro h hblank
    rw [handleAddTopic_blank sb w dst hblank] at h
    simp [calls] at h
  · intro h
    by_contra hblank
    have hb : jsTrim tst.question = "" ∨ jsTrim tst.answer = "" := by
      by_cases hq : jsTrim tst.question = ""
      · exact Or.inl hq
      · by_cases ha : jsTrim tst.answer = ""
        · exact Or.inr ha
        · exact absurd ⟨hq, ha⟩ hblank
    rw [handleAddCard_blank sb w tst hb] at h
    simp [calls] at h
  · intro hname user hu
    cases hr : (sb.db.insertTopic dst.newTopic user.id (sb.auth.getUser w).2).1 with
    | some error =>
      rw [handleAddTopic_error sb w dst user error hname hu hr]
      simp [calls, Call.isInsert]
    | none =>
      rw [handleAddTopic_ok sb w dst user hname hu hr]
      simp only [calls_append, List.filter_append, fetchTopics_no_insert]
      simp [calls, Call.isInsert]
  · intro hq ha
    cases hr : (sb.db.insertCard tst.topicId tst.question tst.answer w).1 with
    | some error =>
      rw [handleAddCard_error sb w tst error hq ha hr]
      simp [calls, Call.isInsert]
    | none =>
      rw [handleAddCard_ok sb w tst hq ha hr]
      simp only [calls, List.filter_cons, fetchCards_no_insert]
      simp [Call.isInsert]

/-- C5 as amended, on the reference store: a blank topic name issues nothing,
the name `Biology` issues exactly the insert under the id of user `u1`. -/
theorem create_inserts_iff_nonblank_witness :
    Dashboard.handleAddTopic store sampleWorld ⟨[], "  "⟩ = ⟨sampleWorld, ⟨[], "  "⟩, []⟩ ∧
    (calls (Dashboard.handleAddTopic store sampleWorld ⟨[], "Biology"⟩).effects).filter
        Call.isInsert = [Call.insertTopic "Biology" "u1"] ∧
    (calls (TopicView.handleAddCard store sampleWorld ⟨"t1", none, [], "Q", "A"⟩).effects).filter
        Call.isInsert = [Call.insertCard "t1" "Q" "A"] :=
  ⟨(create_inserts_iff_nonblank store sampleWorld ⟨[], "  "⟩ ⟨"t1", none, [], "Q", "A"⟩).1
      (by decide),
   (create_inserts_iff_nonblank store sampleWorld ⟨[], "Biology"⟩
      ⟨"t1", none, [], "Q", "A"⟩).2.2.2.2.1 (by decide) ⟨"u1"⟩ rfl,
   (create_inserts_iff_nonblank store sampleWorld ⟨[], "Biology"⟩
      ⟨"t1", none, [], "Q", "A"⟩).2.2.2.2.2 (by decide) (by decide)⟩

/-! ## Ordering by creation time -/

theorem mem_insertDesc {α : Type} (key : α → Nat) (x a : α) (l : List α) :
    a ∈ insertDesc key x l ↔ a = x ∨ a ∈ l := by
  induction l with
  | nil => simp [insertDesc]
  | cons y ys ih =>
    unfold insertDesc
    split
    · simp only [List.mem_cons, ih]
      tauto
    · simp only [List.mem_cons]

theorem mem_orderDesc {α : Type} (key : α → Nat) (a : α) (l : List α) :
    a ∈ orderDesc key l ↔ a ∈ l := by
  induction l with
  | nil => simp [orderDesc]
  | cons y ys ih => simp only [orderDesc, mem_insertDesc, ih, List.mem_cons]

theorem newestFirst_insertDesc {α : Type} (key : α → Nat) (x : α) (l : List α)
    (h : NewestFirst key l) : NewestFirst key (insertDesc key x l) := by
  unfold NewestFirst at *
  induction l with
  | nil => simp [insertDesc]
  | cons y ys ih =>
    rw [List.pairwise_cons] at h
    unfold insertDesc
    split
    · rename_i hxy
      rw [List.pairwise_cons]
      refine ⟨?_, ih h.2⟩
      intro a ha
      rcases (mem_insertDesc key x a ys).mp ha with rfl | ha'
      · exact hxy
      · exact h.1 a ha'
    · rename_i hxy
      rw [List.pairwise_cons]
      refine ⟨?_, List.pairwise_cons.mpr h⟩
      intro a ha
      rcases List.mem_cons.mp ha with rfl | ha'
      · omega
      · have := h.1 a ha'
        omega

theorem newestFirst_orderDesc {α : Type} (key : α → Nat) (l : List α) :
    NewestFirst key (orderDesc key l) := by
  induction l with
  | nil => simp [orderDesc, NewestFirst]
  | cons y ys ih => exact newestFirst_insertDesc key y _ ih

/-- A row strictly newer than all others, appended last, is listed first. -/
theorem orderDesc_append_newest {α : Type} (key : α → Nat) (x : α) (l : List α)
    (h : ∀ a ∈ l, key a < key x) :
    orderDesc key (l ++ [x]) = x :: orderDesc key l := by
  induction l with
  | nil => rfl
  | cons y ys ih =>
    have hy : key y ≤ key x := Nat.le_of_lt (h y (List.mem_cons_self y ys))
    have ih' := ih (fun a ha => h a (List.mem_cons_of_mem y ha))
    show insertDesc key y (orderDesc key (ys ++ [x])) = x :: insertDesc key y (orderDesc key ys)
    rw [ih']
    simp only [insertDesc, if_pos hy]

/-! ## The reference store, call by call -/

theorem store_getUser (w : World) : store.auth.getUser w = (w.user, w) := rfl

theorem store_insertTopic_ok (w : World) (name user_id : String)
    (h : w.fault (Call.insertTopic name user_id) = none) :
    store.db.insertTopic name user_id w =
      (none, { w with
        topics := w.topics ++ [⟨w.freshId w.now, name, user_id, w.now⟩]
        now := w.now + 1 }) := by
  simp [store, World.ack, h]

theorem store_insertCard (w : World) (topic_id question answer : String) :
    store.db.insertCard topic_id question answer w =
      match w.fault (Call.insertCard topic_id question answer) with
      | some error => (some error, w)
      | none =>
        (none, { w with
          cards := w.cards ++ [⟨w.freshId w.now, topic_id, question, answer, w.now⟩]
          now := w.now + 1 }) := rfl

theorem store_selectTopics (w : World) (user_id : String) :
    store.db.selectTopics user_id w =
      match w.fault (Call.selectTopics user_id) with
      | some error => (Except.error error, w)
      | none =>
        (Except.ok (orderDesc Topic.created_at
          (w.topics.filter (fun t => t.user_id = user_id))), w) := rfl

theorem store_selectCards (w : World) (topic_id : String) :
    store.db.selectCards topic_id w =
      match w.fault (Call.selectCards topic_id) with
      | some error => (Except.error error, w)
      | none =>
        (Except.ok (orderDesc Card.created_at
          (w.cards.filter (fun c => c.topic_id = topic_id))), w) := rfl

/-! ## C6: the new topic is listed first -/

/-- C6. For every topic name that is non-empty after trimming, submitted by
an authenticated user against the reference store (select by owner ordered
by creation time descending) in a state where the time stamped by the next
insert is newer than every existing topic row, a `handleAddTopic` whose
insert and re-read succeed clears the input, and the re-read topic list has
the new topic at index 0, with the submitted name and the current user as
owner, followed by the user's earlier topics, newest first. -/
theorem handleAddTopic_lists_new_topic_first (w : World) (st : DashboardState) (user : User)
    (hauth : w.user = some user)
    (hname : jsTrim st.newTopic ≠ "")
    (hnewer : ∀ t ∈ w.topics, t.created_at < w.now)
    (hins : w.fault (Call.insertTopic st.newTopic user.id) = none)
    (hsel : w.fault (Call.selectTopics user.id) = none) :
    (Dashboard.handleAddTopic store w st).state.newTopic = "" ∧
    (∃ t, (Dashboard.handleAddTopic store w st).state.topics[0]? = some t ∧
      t.name = st.newTopic ∧ t.user_id = user.id ∧ t.created_at = w.now) ∧
    (Dashboard.handleAddTopic store w st).state.topics =
      ⟨w.freshId w.now, st.newTopic, user.id, w.now⟩ ::
        orderDesc Topic.created_at (w.topics.filter (fun t => t.user_id = user.id)) ∧
    NewestFirst Topic.created_at (Dashboard.handleAddTopic store w st).state.topics ∧
    (Dashboard.handleAddTopic store w st).world.topics =
      w.topics ++ [⟨w.freshId w.now, st.newTopic, user.id, w.now⟩] ∧
    (Dashboard.handleAddTopic store w st).effects =
      [Effect.call Call.getUser, Effect.call (Call.insertTopic st.newTopic user.id),
       Effect.call Call.getUser, Effect.call (Call.selectTopics user.id)] := by
  have hu : (store.auth.getUser w).1 = some user := by rw [store_getUser]; exact hauth
  have hi := store_insertTopic_ok w st.newTopic user.id hins
  have hi1 : (store.db.insertTopic st.newTopic user.id (store.auth.getUser w).2).1 = none := by
    rw [store_getUser, hi]
  have hlist :
      orderDesc Topic.created_at
        ((w.topics ++ [Topic.mk (w.freshId w.now) st.newTopic user.id w.now]).filter
          (fun t => t.user_id = user.id)) =
      Topic.mk (w.freshId w.now) st.newTopic user.id w.now ::
        orderDesc Topic.created_at (w.topics.filter (fun t => t.user_id = user.id)) := by
    rw [List.filter_append]
    have hone : ([Topic.mk (w.freshId w.now) st.newTopic user.id w.now].filter
        (fun t => t.user_id = user.id)) = [Topic.mk (w.freshId w.now) st.newTopic user.id w.now] := by
      simp
    rw [hone]
    apply orderDesc_append_newest
    intro a ha
    exact hnewer a (List.mem_of_mem_filter ha)
  have hu' : (store.auth.getUser
      { w with
        topics := w.topics ++ [Topic.mk (w.freshId w.now) st.newTopic user.id w.now]
        now := w.now + 1 }).1 = some user := by rw [store_getUser]; exact hauth
  have hsel' : store.db.selectTopics user.id
      { w with
        topics := w.topics ++ [Topic.mk (w.freshId w.now) st.newTopic user.id w.now]
        now := w.now + 1 } =
      (Except.ok (Topic.mk (w.freshId w.now) st.newTopic user.id w.now ::
          orderDesc Topic.created_at (w.topics.filter (fun t => t.user_id = user.id))),
        { w with
          topics := w.topics ++ [Topic.mk (w.freshId w.now) st.newTopic user.id w.now]
          now := w.now + 1 }) := by
    rw [store_selectTopics]
    simp only [hsel, hlist]
  have hf := fetchTopics_ok store
    { w with
      topics := w.topics ++ [Topic.mk (w.freshId w.now) st.newTopic user.id w.now]
      now := w.now + 1 } { st with newTopic := "" } user
    (Topic.mk (w.freshId w.now) st.newTopic user.id w.now ::
      orderDesc Topic.created_at (w.topics.filter (fun t => t.user_id = user.id))) hu'
    (by rw [store_getUser, hsel'])
  rw [store_getUser, hsel'] at hf
  have hrun := handleAddTopic_ok store w st user hname hu hi1
  rw [store_getUser, hi, hf] at hrun
  rw [hrun]
  refine ⟨rfl, ⟨Topic.mk (w.freshId w.now) st.newTopic user.id w.now, by simp, rfl, rfl, rfl⟩,
    rfl, ?_, rfl, rfl⟩
  show NewestFirst Topic.created_at
    (Topic.mk (w.freshId w.now) st.newTopic user.id w.now ::
      orderDesc Topic.created_at (w.topics.filter (fun t => t.user_id = user.id)))
  rw [← hlist]
  exact newestFirst_orderDesc _ _

/-- C6 at the scenario of the specification: user `u1`, who owns the topics
History and Maths, submits `Biology`; the input is cleared and the re-read
list is Biology, Maths, History. -/
theorem handleAddTopic_lists_new_topic_first_witness :
    (Dashboard.handleAddTopic store sampleWorld
        ⟨[⟨"t2", "Maths", "u1", 5⟩, ⟨"t1", "History", "u1", 3⟩], "Biology"⟩).state.newTopic = "" ∧
    (Dashboard.handleAddTopic store sampleWorld
        ⟨[⟨"t2", "Maths", "u1", 5⟩, ⟨"t1", "History", "u1", 3⟩], "Biology"⟩).state.topics.map
          Topic.name = ["Biology", "Maths", "History"] :=
  have h := handleAddTopic_lists_new_topic_first sampleWorld
    ⟨[⟨"t2", "Maths", "u1", 5⟩, ⟨"t1", "History", "u1", 3⟩], "Biology"⟩ ⟨"u1"⟩
    rfl (by decide) (by decide) rfl rfl
  ⟨h.1, by rw [h.2.2.1]; decide⟩

/-! ## C7: the new card is listed under its topic -/

/-- The run of `handleAddCard` on the reference store when the fields are
not blank and neither the insert nor the re-read is rejected. -/
theorem handleAddCard_store_ok (w : World) (st : TopicViewState)
    (hq : jsTrim st.question ≠ "") (ha : jsTrim st.answer ≠ "")
    (hins : w.fault (Call.insertCard st.topicId st.question st.answer) = none)
    (hsel : w.fault (Call.selectCards st.topicId) = none) :
    TopicView.handleAddCard store w st =
      ⟨{ w with
          cards := w.cards ++ [Card.mk (w.freshId w.now) st.topicId st.question st.answer w.now]
          now := w.now + 1 },
        { st with
          question := ""
          answer := ""
          cards := orderDesc Card.created_at
            ((w.cards ++ [Card.mk (w.freshId w.now) st.topicId st.question st.answer w.now]).filter
              (fun c => c.topic_id = st.topicId)) },
        [Effect.call (Call.insertCard st.topicId st.question st.answer),
         Effect.call (Call.selectCards st.topicId)]⟩ := by
  have hi : store.db.insertCard st.topicId st.question st.answer w =
      (none, { w with
        cards := w.cards ++ [Card.mk (w.freshId w.now) st.topicId st.question st.answer w.now]
        now := w.now + 1 }) := by
    rw [store_insertCard]
    simp only [hins]
  have hs : store.db.selectCards st.topicId
      { w with
        cards := w.cards ++ [Card.mk (w.freshId w.now) st.topicId st.question st.answer w.now]
        now := w.now + 1 } =
      (Except.ok (orderDesc Card.created_at
          ((w.cards ++ [Card.mk (w.freshId w.now) st.topicId st.question st.answer w.now]).filter
            (fun c => c.topic_id = st.topicId))),
        { w with
          cards := w.cards ++ [Card.mk (w.freshId w.now) st.topicId st.question st.answer w.now]
          now := w.now + 1 }) := by
    rw [store_selectCards]
    simp only [hsel]
  have hf := fetchCards_ok store
    { w with
      cards := w.cards ++ [Card.mk (w.freshId w.now) st.topicId st.question st.answer w.now]
      now := w.now + 1 } { st with question := "", answer := "" }
    (orderDesc Card.created_at
      ((w.cards ++ [Card.mk (w.freshId w.now) st.topicId st.question st.answer w.now]).filter
        (fun c => c.topic_id = st.topicId)))
    (by rw [hs])
  rw [hs] at hf
  have hrun := handleAddCard_ok store w st hq ha (by rw [hi])
  rw [hi, hf] at hrun
  exact hrun

/-- C7. For every card submission on the view of topic `T` against the
reference store (select by `topic_id`, ordered by creation time descending):
a `handleAddCard` is successful (it issues the insert and no error is
alerted) exactly when question and answer are non-empty after trimming and
the provider rejects neither the insert nor the re-read; and every successful
`handleAddCard` issues exactly one insert, of a row with `topic_id = T` and
the submitted question and answer, stores that row, clears both inputs, and
the re-read card list contains that card, holds only cards of topic `T` and
is ordered newest first. -/
theorem handleAddCard_lists_card (w : World) (st : TopicViewState) :
    ((Call.insertCard st.topicId st.question st.answer ∈
          calls (TopicView.handleAddCard store w st).effects ∧
        alerts (TopicView.handleAddCard store w st).effects = []) ↔
      (jsTrim st.question ≠ "" ∧ jsTrim st.answer ≠ "" ∧
        w.fault (Call.insertCard st.topicId st.question st.answer) = none ∧
        w.fault (Call.selectCards st.topicId) = none)) ∧
    ((Call.insertCard st.topicId st.question st.answer ∈
          calls (TopicView.handleAddCard store w st).effects ∧
        alerts (TopicView.handleAddCard store w st).effects = []) →
      (calls (TopicView.handleAddCard store w st).effects).filter Call.isInsert =
        [Call.insertCard st.topicId st.question st.answer] ∧
      (TopicView.handleAddCard store w st).world.cards =
        w.cards ++ [Card.mk (w.freshId w.now) st.topicId st.question st.answer w.now] ∧
      (TopicView.handleAddCard store w st).state.question = "" ∧
      (TopicView.handleAddCard store w st).state.answer = "" ∧
      Card.mk (w.freshId w.now) st.topicId st.question st.answer w.now ∈
        (TopicView.handleAddCard store w st).state.cards ∧
      (∀ c ∈ (TopicView.handleAddCard store w st).state.cards, c.topic_id = st.topicId) ∧
      NewestFirst Card.created_at (TopicView.handleAddCard store w st).state.cards) := by
  have hiff : (Call.insertCard st.topicId st.question st.answer ∈
          calls (TopicView.handleAddCard store w st).effects ∧
        alerts (TopicView.handleAddCard store w st).effects = []) ↔
      (jsTrim st.question ≠ "" ∧ jsTrim st.answer ≠ "" ∧
        w.fault (Call.insertCard st.topicId st.question st.answer) = none ∧
        w.fault (Call.selectCards st.topicId) = none) := by
    constructor
    · rintro ⟨hcall, halert⟩
      by_cases hq : jsTrim st.question = ""
      · rw [handleAddCard_blank store w st (Or.inl hq)] at hcall
        simp [calls] at hcall
      by_cases ha : jsTrim st.answer = ""
      · rw [handleAddCard_blank store w st (Or.inr ha)] at hcall
        simp [calls] at hcall
      cases hins : w.fault (Call.insertCard st.topicId st.question st.answer) with
      | some error =>
        have hi : (store.db.insertCard st.topicId st.question st.answer w).1 = some error := by
          rw [store_insertCard]; simp only [hins]
        rw [handleAddCard_error store w st error hq ha hi] at halert
        simp [alerts] at halert
      | none =>
        have hi : store.db.insertCard st.topicId st.question st.answer w =
            (none, { w with
              cards := w.cards ++
                [Card.mk (w.freshId w.now) st.topicId st.question st.answer w.now]
              now := w.now + 1 }) := by
          rw [store_insertCard]; simp only [hins]
        cases hsel : w.fault (Call.selectCards st.topicId) with
        | none => exact ⟨hq, ha, rfl, rfl⟩
        | some error =>
          have hrun := handleAddCard_ok store w st hq ha (by rw [hi])
          rw [hi] at hrun
          have hf := fetchCards_error store
            { w with
              cards := w.cards ++
                [Card.mk (w.freshId w.now) st.topicId st.question st.answer w.now]
              now := w.now + 1 } { st with question := "", answer := "" } error
            (by rw [store_selectCards]; simp only [hsel])
          rw [hf] at hrun
          rw [hrun] at halert
          simp [alerts] at halert
    · rintro ⟨hq, ha, hins, hsel⟩
      rw [handleAddCard_store_ok w st hq ha hins hsel]
      simp [calls, alerts]
  refine ⟨hiff, fun hsucc => ?_⟩
  obtain ⟨hq, ha, hins, hsel⟩ := hiff.mp hsucc
  rw [handleAddCard_store_ok w st hq ha hins hsel]
  refine ⟨by simp [calls, Call.isInsert], rfl, rfl, rfl, ?_, ?_, newestFirst_orderDesc _ _⟩
  · show _ ∈ orderDesc Card.created_at _
    rw [mem_orderDesc]
    simp
  · intro c hc
    have hc' : c ∈ orderDesc Card.created_at
        ((w.cards ++ [Card.mk (w.freshId w.now) st.topicId st.question st.answer w.now]).filter
          (fun c => c.topic_id = st.topicId)) := hc
    rw [mem_orderDesc] at hc'
    simpa using (List.mem_filter.mp hc').2

/-- C7 on the reference store: on the view of topic `t1`, which holds the
card `Q0`, submitting `Q`/`A` succeeds and the re-read list is `Q`, `Q0`. -/
theorem handleAddCard_lists_card_witness :
    (jsTrim "Q" ≠ "" ∧ jsTrim "A" ≠ "") ∧
    (TopicView.handleAddCard store sampleWorld ⟨"t1", none, [], "Q", "A"⟩).state.question = "" ∧
    Card.mk "xxxxxxx" "t1" "Q" "A" 7 ∈
      (TopicView.handleAddCard store sampleWorld ⟨"t1", none, [], "Q", "A"⟩).state.cards ∧
    NewestFirst Card.created_at
      (TopicView.handleAddCard store sampleWorld ⟨"t1", none, [], "Q", "A"⟩).state.cards :=
  have h := handleAddCard_lists_card sampleWorld ⟨"t1", none, [], "Q", "A"⟩
  have hs := h.1.mpr ⟨by decide, by decide, rfl, rfl⟩
  ⟨⟨by decide, by decide⟩, (h.2 hs).2.2.1, (h.2 hs).2.2.2.2.1, (h.2 hs).2.2.2.2.2.2⟩

/-! ## C8: the flip toggle -/

/-- C8. For every flashcard and either flip state: two clicks give back the
same state and the same displayed face, one click changes the displayed face,
a click changes nothing but `flipped` (the card is kept) and has no effect
outside the component (no provider call); a freshly mounted flashcard is
unflipped and shows the question face. -/
theorem flip_twice_restores_face (st : FlashcardState) (card : Card) :
    (Flashcard.onClick (Flashcard.onClick st).1).1 = st ∧
    displayedFace (Flashcard.render (Flashcard.onClick (Flashcard.onClick st).1).1) =
      displayedFace (Flashcard.render st) ∧
    displayedFace (Flashcard.render (Flashcard.onClick st).1) ≠
      displayedFace (Flashcard.render st) ∧
    (Flashcard.onClick st).1 = { st with flipped := !st.flipped } ∧
    (Flashcard.onClick st).1.card = st.card ∧
    (Flashcard.onClick st).2 = [] ∧
    calls (Flashcard.onClick st).2 = [] ∧
    (Flashcard.mount card).flipped = false ∧
    displayedFace (Flashcard.render (Flashcard.mount card)) = Face.question ∧
    displayedFace (Flashcard.render st) = (if st.flipped then Face.answer else Face.question) := by
  obtain ⟨c, f⟩ := st
  have h1 : ∀ d : Card, displayedFace (Flashcard.render ⟨d, true⟩) = Face.answer :=
    fun _ => by rfl
  have h0 : ∀ d : Card, displayedFace (Flashcard.render ⟨d, false⟩) = Face.question :=
    fun _ => by rfl
  cases f <;> simp [Flashcard.onClick, Flashcard.mount, calls, h0, h1]

/-! ## C9: provider errors leave the screen state unchanged -/

/-- C9. When the provider reports an error for an insert or for a list read,
the state of the screen is left as it was.  A failed insert in
`handleAddTopic` or `handleAddCard` keeps the inputs and the list, and the
run ends with the alert: no read follows.  A failed read in `fetchTopics`,
`fetchCards` or `fetchTopic` keeps the list (or topic) and the inputs. -/
theorem provider_error_keeps_state {σ : Type} (sb : Supabase σ) (w : σ)
    (dst : DashboardState) (tst : TopicViewState) (user : User) (error : ApiError) :
    (jsTrim dst.newTopic ≠ "" → (sb.auth.getUser w).1 = some user →
      (sb.db.insertTopic dst.newTopic user.id (sb.auth.getUser w).2).1 = some error →
      (Dashboard.handleAddTopic sb w dst).state = dst ∧
      (Dashboard.handleAddTopic sb w dst).effects =
        [Effect.call Call.getUser, Effect.call (Call.insertTopic dst.newTopic user.id),
         Effect.alert error.message] ∧
      (calls (Dashboard.handleAddTopic sb w dst).effects).filter Call.isSelect = []) ∧
    (jsTrim tst.question ≠ "" → jsTrim tst.answer ≠ "" →
      (sb.db.insertCard tst.topicId tst.question tst.answer w).1 = some error →
      (TopicView.handleAddCard sb w tst).state = tst ∧
      (TopicView.handleAddCard sb w tst).effects =
        [Effect.call (Call.insertCard tst.topicId tst.question tst.answer),
         Effect.alert error.message] ∧
      (calls (TopicView.handleAddCard sb w tst).effects).filter Call.isSelect = []) ∧
    ((sb.auth.getUser w).1 = some user →
      (sb.db.selectTopics user.id (sb.auth.getUser w).2).1 = Except.error error →
      (Dashboard.fetchTopics sb w dst).state = dst) ∧
    ((sb.db.selectCards tst.topicId w).1 = Except.error error →
      (TopicView.fetchCards sb w tst).state = tst) ∧
    ((sb.db.selectTopic tst.topicId w).1 = Except.error error →
      (TopicView.fetchTopic sb w tst).state = tst) := by
  refine ⟨?_, ?_, ?_, ?_, ?_⟩
  · intro hname hu hr
    rw [handleAddTopic_error sb w dst user error hname hu hr]
    simp [calls, Call.isSelect]
  · intro hq ha hr
    rw [handleAddCard_error sb w tst error hq ha hr]
    simp [calls, Call.isSelect]
  · intro hu hr
    rw [fetchTopics_error sb w dst user error hu hr]
  · intro hr
    rw [fetchCards_error sb w tst error hr]
  · intro hr
    rw [fetchTopic_error sb w tst error hr]

/-- C9 on the reference store rejecting every call with `boom`: the failed
topic insert keeps the input `Biology` and the displayed list, and the failed
list read keeps the displayed list. -/
theorem provider_error_keeps_state_witness :
    (Dashboard.handleAddTopic store (failingWorld "boom")
        ⟨[⟨"t1", "History", "u1", 3⟩], "Biology"⟩).state =
      ⟨[⟨"t1", "History", "u1", 3⟩], "Biology"⟩ ∧
    (Dashboard.fetchTopics store (failingWorld "boom")
        ⟨[⟨"t1", "History", "u1", 3⟩], "Biology"⟩).state =
      ⟨[⟨"t1", "History", "u1", 3⟩], "Biology"⟩ :=
  have h := provider_error_keeps_state store (failingWorld "boom")
    ⟨[⟨"t1", "History", "u1", 3⟩], "Biology"⟩ ⟨"t1", none, [], "Q", "A"⟩ ⟨"u1"⟩ ⟨"boom"⟩
  ⟨(h.1 (by decide) rfl rfl).1, h.2.2.1 rfl rfl⟩

/-! ## C10: how provider errors are surfaced -/

/-- C10, the claim as stated fails at the dashboard's topic list read: with
the reference store rejecting the select with `boom`, `fetchTopics` shows no
alert at all; the error object goes to `console.error`. -/
theorem dashboard_read_error_not_alerted :
    (store.db.selectTopics "u1" (store.auth.getUser (failingWorld "boom")).2).1 =
      Except.error ⟨"boom"⟩ ∧
    alerts (Dashboard.fetchTopics store (failingWorld "boom") ⟨[], ""⟩).effects = [] ∧
    ¬ (Effect.alert "boom" ∈ (Dashboard.fetchTopics store (failingWorld "boom") ⟨[], ""⟩).effects) ∧
    (Dashboard.fetchTopics store (failingWorld "boom") ⟨[], ""⟩).effects =
      [Effect.call Call.getUser, Effect.call (Call.selectTopics "u1"),
       Effect.consoleError ⟨"boom"⟩] := by
  refine ⟨rfl, ?_, ?_, ?_⟩ <;> decide

/-- C10 as amended. A provider error of sign-in, of sign-up, of an insert
on topics or cards, and of a select in the topic view (`fetchCards`,
`fetchTopic`) is shown to the user in exactly one alert carrying the
provider's message verbatim; an error of the dashboard's topic list read
(`fetchTopics`) raises no alert and is written to the console instead. -/
theorem provider_errors_surfaced {σ : Type} (sb : Supabase σ) (w : σ)
    (lst : LoginState) (rst : RegisterState) (dst : DashboardState) (tst : TopicViewState)
    (user : User) (error : ApiError) :
    ((sb.auth.signInWithPassword lst.email lst.password w).1 = some error →
      alerts (Login.handleLogin sb w lst).effects = [error.message]) ∧
    (rst.password = rst.confirmPassword → rst.acceptedTerms = true →
      (sb.auth.signUp rst.email rst.password rst.fullName w).1 = some error →
      alerts (Register.handleRegister sb w rst).effects = [error.message]) ∧
    (jsTrim dst.newTopic ≠ "" → (sb.auth.getUser w).1 = some user →
      (sb.db.insertTopic dst.newTopic user.id (sb.auth.getUser w).2).1 = some error →
      alerts (Dashboard.handleAddTopic sb w dst).effects = [error.message]) ∧
    (jsTrim tst.question ≠ "" → jsTrim tst.answer ≠ "" →
      (sb.db.insertCard tst.topicId tst.question tst.answer w).1 = some error →
      alerts (TopicView.handleAddCard sb w tst).effects = [error.message]) ∧
    ((sb.db.selectCards tst.topicId w).1 = Except.error error →
      alerts (TopicView.fetchCards sb w tst).effects = [error.message]) ∧
    ((sb.db.selectTopic tst.topicId w).1 = Except.error error →
      alerts (TopicView.fetchTopic sb w tst).effects = [error.message]) ∧
    ((sb.auth.getUser w).1 = some user →
      (sb.db.selectTopics user.id (sb.auth.getUser w).2).1 = Except.error error →
      alerts (Dashboard.fetchTopics sb w dst).effects = [] ∧
      (Dashboard.fetchTopics sb w dst).effects =
        [Effect.call Call.getUser, Effect.call (Call.selectTopics user.id),
         Effect.consoleError error]) := by
  refine ⟨?_, ?_, ?_, ?_, ?_, ?_, ?_⟩
  · intro hr
    rw [handleLogin_error sb w lst error hr]
    rfl
  · intro hp ht hr
    rw [handleRegister_error sb w rst hp ht error hr]
    rfl
  · intro hname hu hr
    rw [handleAddTopic_error sb w dst user error hname hu hr]
    rfl
  · intro hq ha hr
    rw [handleAddCard_error sb w tst error hq ha hr]
    rfl
  · intro hr
    rw [fetchCards_error sb w tst error hr]
    rfl
  · intro hr
    rw [fetchTopic_error sb w tst error hr]
    rfl
  · intro hu hr
    rw [fetchTopics_error sb w dst user error hu hr]
    exact ⟨rfl, rfl⟩

/-- C10 as amended, on the reference store rejecting every call with
`boom`: sign-in and the card list read alert `boom`. -/
theorem provider_errors_surfaced_witness :
    alerts (Login.handleLogin store (failingWorld "boom") ⟨"a@x.com", "p1", false⟩).effects =
      ["boom"] ∧
    alerts (TopicView.fetchCards store (failingWorld "boom")
      ⟨"t1", none, [], "Q", "A"⟩).effects = ["boom"] :=
  have h := provider_errors_surfaced store (failingWorld "boom") ⟨"a@x.com", "p1", false⟩
    ⟨"Ann", "a@x.com", "p1", "p1", true, false⟩ ⟨[], "Biology"⟩ ⟨"t1", none, [], "Q", "A"⟩
    ⟨"u1"⟩ ⟨"boom"⟩
  ⟨h.1 rfl, h.2.2.2.2.1 rfl⟩

end Flashcard2
